import Mathlib

/-!
# Mesh switch dimmer: button handling

A shallow embedding of the button-driven dimmer of the mesh switch firmware:

* `board.c`: the worker loop body `board_task`, the one-shot timer callback
  `button_timer_callback` and the GPIO interrupt handler
  `button_interrupt_callback`;
* `switch_dimmer.c`: the level table `client_level_step` and
  `mesh_dimmer_set_level`;
* `mesh_app.c`: the fast power-off reset counter
  `mesh_app_fast_power_off_execute`;
* `flash_utils.c`: the counter entry of the key-value store and the key
  rendering of `flash_memory_read` and `flash_memory_write`.

Machine integers are natural numbers with an explicit modulus where the C
arithmetic can wrap.  Calls that leave the translation unit (FreeRTOS timer
API, mesh library) are recorded in order in a list of `Call`s.
-/

namespace MeshDimmer

/-! ## Constants of `board.c`, `board.h` and `switch_dimmer.c` -/

/-- Macro `BUTTON_LONGPRESS_INTERVAL (10000u)` of `board.c`. -/
def BUTTON_LONGPRESS_INTERVAL : Nat := 10000

/-- Macro `BUTTON_INTERVAL_MS (500u)`: the period handed to `xTimerCreate`. -/
def BUTTON_INTERVAL_MS : Nat := 500

/-- Macro `BUTTON_NUM_STEPS (9u)` of `board.c`. -/
def BUTTON_NUM_STEPS : Nat := 9

/-- Macro `SWITCH_NUM_LEVELS (9u)` of `switch_dimmer.c`. -/
def SWITCH_NUM_LEVELS : Nat := 9

/-- First enumerator of the anonymous event enum of `board.h`. -/
def BUTTON_PRESS : Nat := 0

/-- Second enumerator of the event enum: a release before the long-press threshold. -/
def BUTTON_PRESSED : Nat := 1

/-- Third enumerator of the event enum: a release at or after the threshold. -/
def BUTTON_LONGPRESSED : Nat := 2

/-- The table `uint16_t client_level_step[SWITCH_NUM_LEVELS]`. -/
def client_level_step : List Nat :=
  [0x8000, 0xa000, 0xC000, 0xE000, 0x0000, 0x2000, 0x4000, 0x6000, 0x7FFF]

/-! ## Calls that leave the module -/

/-- The two FreeRTOS software timers the program owns. -/
inductive TimerHandle where
  | button_timer_handle
  | power_off_timer
deriving DecidableEq, Repr

/-- One call to a function outside the modelled files, in source order.
`mesh_dimmer_set_level` takes its level index from the global
`button_step_count`; the value the global has at the call is recorded with
the two arguments. -/
inductive Call where
  | xTimerStart (t : TimerHandle)
  | xTimerStartFromISR (t : TimerHandle)
  | xTimerStop (t : TimerHandle)
  | xTimerStopFromISR (t : TimerHandle)
  | mesh_dimmer_set_level (is_instant is_final : Bool) (button_step_count : Nat)
  | mesh_application_factory_reset
deriving DecidableEq, Repr

/-- Whether a call is a `mesh_dimmer_set_level` call. -/
def Call.isSetLevel : Call → Bool
  | .mesh_dimmer_set_level _ _ _ => true
  | _ => false

/-- Effect of one call on the active flag of timer `t`: both start variants
arm it, both stop variants disarm it, anything else leaves it alone. -/
def Call.timerAfter (t : TimerHandle) (active : Bool) : Call → Bool
  | .xTimerStart u => if u = t then true else active
  | .xTimerStartFromISR u => if u = t then true else active
  | .xTimerStop u => if u = t then false else active
  | .xTimerStopFromISR u => if u = t then false else active
  | _ => active

/-- Active flag of timer `t` after a sequence of calls, processed in order. -/
def timerActive (t : TimerHandle) (active : Bool) (calls : List Call) : Bool :=
  calls.foldl (Call.timerAfter t) active

/-! ## Dimmer state: the globals of `board.c` written by the worker and the timer -/

/-- Globals of `board.c` owned by `board_task` and `button_timer_callback`.
`button_step_count` and `previous_level` are `uint8_t`. -/
structure Dimmer where
  button_step_count : Nat
  previous_level : Nat
  button_level_moving : Bool
  button_short_press : Bool
  button_directon : Bool
  button_previous_direction : Bool
deriving DecidableEq, Repr

/-- Static initialisers of `board.c`. -/
def Dimmer.initial : Dimmer where
  button_step_count := 0
  previous_level := BUTTON_NUM_STEPS - 1
  button_level_moving := false
  button_short_press := false
  button_directon := true
  button_previous_direction := true

/-- Arguments of a FreeRTOS `xTimerCreate` call that the model keeps: the
period in ticks and the auto-reload flag. -/
structure TimerConfig where
  period : Nat
  auto_reload : Bool
deriving DecidableEq, Repr

/-- The timer `board_task` creates before its loop:
`xTimerCreate("Button Timer", BUTTON_INTERVAL_MS, pdFALSE, NULL, button_timer_callback)`. -/
def button_timer_create : TimerConfig :=
  { period := BUTTON_INTERVAL_MS, auto_reload := false }

/-- One iteration of the `for(;;)` loop of `board_task`, after
`xTaskNotifyWait` returned `notify_value`: the `switch` statement. -/
def board_task (notify_value : Nat) (s : Dimmer) : Dimmer × List Call :=
  if notify_value = BUTTON_PRESS then
    ({ s with button_short_press := true }, [.xTimerStart .button_timer_handle])
  else if notify_value = BUTTON_PRESSED then
    if s.button_short_press = true then
      if s.button_step_count = 0 then
        let s1 := { s with button_step_count := s.previous_level }
        let s2 :=
          if s1.button_step_count = 0 then
            { s1 with button_directon := true }
          else if s1.button_step_count = BUTTON_NUM_STEPS - 1 then
            { s1 with button_directon := false }
          else
            { s1 with button_directon := s1.button_previous_direction }
        (s2, [.mesh_dimmer_set_level true true s2.button_step_count])
      else
        let s1 := { s with previous_level := s.button_step_count }
        let s2 := { s1 with button_step_count := 0 }
        let s3 := { s2 with button_previous_direction := s2.button_directon }
        let s4 := { s3 with button_directon := true }
        (s4, [.mesh_dimmer_set_level true true s4.button_step_count])
    else
      ({ s with button_level_moving := false }, [.xTimerStop .button_timer_handle])
  else if notify_value = BUTTON_LONGPRESSED then
    ({ s with button_level_moving := false },
      [.xTimerStopFromISR .button_timer_handle, .mesh_application_factory_reset])
  else
    (s, [])

/-- The timer callback `button_timer_callback`.  `value` is the `bool` read
from the button pin; `CYBSP_BTN_PRESSED` is the board support macro it is
compared with (its definition is not part of the sources).  The increment
and decrement act on a `uint8_t`, hence the modulus 256. -/
def button_timer_callback (CYBSP_BTN_PRESSED : Nat) (value : Bool) (s : Dimmer) :
    Dimmer × List Call :=
  let r : Dimmer × List Call :=
    if value.toNat = CYBSP_BTN_PRESSED then
      ({ s with button_level_moving := true, button_short_press := false },
        [.xTimerStartFromISR .button_timer_handle])
    else
      (s, [])
  let s1 := r.1
  if s1.button_directon = true ∧ s1.button_level_moving = true then
    let s2 := { s1 with button_step_count := (s1.button_step_count + 1) % 256 }
    if s2.button_step_count = BUTTON_NUM_STEPS - 1 then
      let s3 := { s2 with button_directon := false }
      let s4 := { s3 with previous_level := s3.button_step_count }
      (s4, r.2 ++ [.xTimerStopFromISR .button_timer_handle,
                   .mesh_dimmer_set_level false true s4.button_step_count])
    else
      let s3 := { s2 with previous_level := s2.button_step_count }
      (s3, r.2 ++ [.mesh_dimmer_set_level false false s3.button_step_count])
  else if s1.button_directon = false ∧ s1.button_level_moving = true then
    let s2 := { s1 with button_step_count := (s1.button_step_count + 255) % 256 }
    if s2.button_step_count = 0 then
      let s3 := { s2 with button_directon := true }
      let s4 := { s3 with previous_level := BUTTON_NUM_STEPS - 1 }
      (s4, r.2 ++ [.xTimerStopFromISR .button_timer_handle,
                   .mesh_dimmer_set_level false true s4.button_step_count])
    else
      let s3 := { s2 with previous_level := s2.button_step_count }
      (s3, r.2 ++ [.mesh_dimmer_set_level false false s3.button_step_count])
  else
    (s1, r.2)

/-- Whether the `uint8_t` increment or decrement executed by a timer fire
leaves the range of the type: `button_step_count ++` at 255 or
`button_step_count --` at 0. -/
def timerFireWraps (CYBSP_BTN_PRESSED : Nat) (value : Bool) (s : Dimmer) : Bool :=
  let moving := decide (value.toNat = CYBSP_BTN_PRESSED) || s.button_level_moving
  if s.button_directon = true ∧ moving = true then
    decide (256 ≤ s.button_step_count + 1)
  else if s.button_directon = false ∧ moving = true then
    decide (s.button_step_count = 0)
  else
    false

/-! ## Steps of the dimmer state machine -/

/-- The three event codes the edge detector can post to the worker. -/
inductive ButtonEvent where
  | Pressed
  | ReleasedShort
  | ReleasedLong
deriving DecidableEq, Repr

/-- The notification value of an event. -/
def ButtonEvent.code : ButtonEvent → Nat
  | .Pressed => BUTTON_PRESS
  | .ReleasedShort => BUTTON_PRESSED
  | .ReleasedLong => BUTTON_LONGPRESSED

/-- One step of the machine: the worker consumes an event, or the timer fires
with the button pin reading `value`. -/
inductive Step where
  | event (e : ButtonEvent)
  | timer (value : Bool)
deriving DecidableEq, Repr

/-- Execute one step. -/
def step (CYBSP_BTN_PRESSED : Nat) (s : Dimmer) : Step → Dimmer × List Call
  | .event e => board_task e.code s
  | .timer value => button_timer_callback CYBSP_BTN_PRESSED value s

/-- State after a finite sequence of steps. -/
def run (CYBSP_BTN_PRESSED : Nat) (s : Dimmer) (steps : List Step) : Dimmer :=
  steps.foldl (fun t i => (step CYBSP_BTN_PRESSED t i).1) s

/-- A state is reachable when some finite sequence of steps leads to it from
the static initialisers. -/
def Reachable (CYBSP_BTN_PRESSED : Nat) (s : Dimmer) : Prop :=
  ∃ steps : List Step, run CYBSP_BTN_PRESSED Dimmer.initial steps = s

/-- The inductive invariant of the machine: both indices stay in the table,
the remembered level is never 0, and the direction points inwards at both
ends of the range. -/
def Inv (s : Dimmer) : Prop :=
  s.button_step_count ≤ 8 ∧ 1 ≤ s.previous_level ∧ s.previous_level ≤ 8 ∧
    (s.button_step_count = 0 → s.button_directon = true) ∧
    (s.button_step_count = 8 → s.button_directon = false)

/-! ## `switch_dimmer.c`: sending a level -/

/-- The argument `wiced_bt_mesh_level_set_level_t set_data` of the level
client.  `level` holds the 16-bit pattern copied from the table. -/
structure wiced_bt_mesh_level_set_level_t where
  level : Nat
  transition_time : Nat
  delay : Nat
deriving DecidableEq, Repr

/-- The struct `mesh_level_state_t` behind the global `app_state`;
`level_step` is a `uint8_t`. -/
structure mesh_level_state_t where
  level_step : Nat
  remaining_time : Nat
deriving DecidableEq, Repr

/-- The globals `switch_dimmer.c` can see: `button_step_count` (declared
there with external linkage) and its own `app_state`. -/
structure SwitchDimmer where
  button_step_count : Nat
  app_state : mesh_level_state_t
deriving DecidableEq, Repr

/-- The request `wiced_bt_mesh_model_level_client_set(element_idx, is_final, &set_data)`. -/
structure LevelClientSet where
  element_idx : Nat
  is_final : Bool
  set_data : wiced_bt_mesh_level_set_level_t
deriving DecidableEq, Repr

/-- The function `mesh_dimmer_set_level`.  The table is read at
`button_step_count`; a read past its end has no defined result and yields
`none`. -/
def mesh_dimmer_set_level (g : SwitchDimmer) (is_instant is_final : Bool) :
    Option (SwitchDimmer × LevelClientSet) :=
  match client_level_step[g.button_step_count]? with
  | none => none
  | some level =>
    let set_data : wiced_bt_mesh_level_set_level_t :=
      { level := level, transition_time := if is_instant then 100 else 500, delay := 0 }
    let app_state : mesh_level_state_t :=
      { level_step := set_data.level % 256, remaining_time := set_data.transition_time }
    some ({ g with app_state := app_state },
      { element_idx := 0, is_final := is_final, set_data := set_data })

/-! ## Edge detector: the globals of `board.c` written by the interrupt handler -/

/-- Globals owned by `button_interrupt_callback`: `button_previous_value`
and `button_pushed_duration` are `uint32_t`, `button_pushed_time` is
`uint64_t`. -/
structure Edge where
  button_previous_value : Nat
  button_pushed_time : Nat
  button_pushed_duration : Nat
deriving DecidableEq, Repr

/-- Static initialisers of the edge detector. -/
def Edge.initial : Edge where
  button_previous_value := 1
  button_pushed_time := 0
  button_pushed_duration := 0

/-- The interrupt handler `button_interrupt_callback`.  `value` is the pin
level and `current_time` the tick count read on entry (both `uint32_t`);
`CYBSP_BTN_PRESSED` is the board support macro.  The second component is the
value handed to `xTaskNotifyFromISR`, if the handler calls it.  The
subtraction is carried out in `uint64_t` and stored in a `uint32_t`. -/
def button_interrupt_callback (CYBSP_BTN_PRESSED : Nat) (value current_time : Nat)
    (e : Edge) : Edge × Option Nat :=
  if value = e.button_previous_value then
    (e, none)
  else
    let e1 := { e with button_previous_value := value }
    if value = CYBSP_BTN_PRESSED then
      ({ e1 with button_pushed_time := current_time }, some BUTTON_PRESS)
    else
      let e2 := { e1 with button_pushed_duration :=
        ((current_time + 2 ^ 64 - e1.button_pushed_time) % 2 ^ 64) % 2 ^ 32 }
      (e2, some (if e2.button_pushed_duration < BUTTON_LONGPRESS_INTERVAL
                 then BUTTON_PRESSED else BUTTON_LONGPRESSED))

/-! ## `mesh_app.c`: factory reset after repeated fast power-offs -/

/-- Macro `MESH_APP_FAST_POWER_OFF_NUM 5u` of `mesh_app.c`. -/
def MESH_APP_FAST_POWER_OFF_NUM : Nat := 5

/-- Outcome of the key-value store operations during one run, as seen by
`flash_utils.c`: whether `mtb_kvstore_read`, `mtb_kvstore_write` and
`mtb_kvstore_delete` report success. -/
structure KvResult where
  read_ok : Bool
  write_ok : Bool
  delete_ok : Bool
deriving DecidableEq, Repr

/-- The function `flash_memory_read` on the one-byte counter entry: the
returned length and the byte placed in the buffer.  `store` is the byte kept
under the counter key, if the key exists. -/
def flash_memory_read (k : KvResult) (store : Option Nat) : Nat × Option Nat :=
  match store with
  | none => (0, none)
  | some b => if k.read_ok then (1, some b) else (0, none)

/-- The function `flash_memory_write` of one byte: new store and returned length. -/
def flash_memory_write (k : KvResult) (store : Option Nat) (b : Nat) : Option Nat × Nat :=
  if k.write_ok then (some b, 1) else (store, 0)

/-- The function `flash_memory_delete`: the store afterwards. -/
def flash_memory_delete (k : KvResult) (store : Option Nat) : Option Nat :=
  if k.delete_ok then none else store

/-- The counter `cnt` of `mesh_app_fast_power_off_execute` after the read:
1 when the read did not return one byte, the stored byte plus one (in
`uint8_t`) otherwise. -/
def fastPowerOffCount (k : KvResult) (store : Option Nat) : Nat :=
  match flash_memory_read k store with
  | (1, some b) => (b + 1) % 256
  | _ => 1

/-- The function `mesh_app_fast_power_off_execute`: the store afterwards and
the calls made. -/
def mesh_app_fast_power_off_execute (k : KvResult) (store : Option Nat) :
    Option Nat × List Call :=
  let cnt := fastPowerOffCount k store
  if MESH_APP_FAST_POWER_OFF_NUM ≤ cnt then
    (flash_memory_delete k store, [.mesh_application_factory_reset])
  else
    let w := flash_memory_write k store cnt
    if w.2 ≠ 1 then
      (w.1, [])
    else
      (w.1, [.xTimerStart .power_off_timer])

/-! ## Delivery of events to the worker -/

/-- Modelled from the spec: the FreeRTOS task-notification primitive is not
part of the sources.  The two `eNotifyAction` values that set the
notification value of the worker. -/
inductive eNotifyAction where
  | eSetValueWithOverwrite
  | eSetValueWithoutOverwrite
deriving DecidableEq, Repr

/-- Modelled from the spec: `xTaskNotifyFromISR` on the single notification
slot of the worker (`none` when the last value has been consumed).  Without
overwrite, a value that is still pending is kept and the new one is dropped;
with overwrite the new value replaces it. -/
def xTaskNotifyFromISR (slot : Option Nat) (ulValue : Nat) : eNotifyAction → Option Nat
  | .eSetValueWithOverwrite => some ulValue
  | .eSetValueWithoutOverwrite =>
    match slot with
    | some pending => some pending
    | none => some ulValue

/-- The interrupt handler together with its notification: both
`xTaskNotifyFromISR` calls of `button_interrupt_callback` pass
`eSetValueWithoutOverwrite`.  The second component is the slot afterwards. -/
def button_interrupt_post (CYBSP_BTN_PRESSED : Nat) (value current_time : Nat)
    (e : Edge) (slot : Option Nat) : Edge × Option Nat :=
  let r := button_interrupt_callback CYBSP_BTN_PRESSED value current_time e
  match r.2 with
  | none => (r.1, slot)
  | some ev => (r.1, xTaskNotifyFromISR slot ev .eSetValueWithoutOverwrite)

/-- One signalled event: its code, the tick read by the interrupt that
signalled it, and `button_pushed_duration` as the handler left it. -/
structure Signal where
  code : Nat
  tick : Nat
  duration : Nat
deriving DecidableEq, Repr

/-- The events the handler signals over a sequence of interrupts, each given
by the pin level and the tick count it reads, in order. -/
def edgeSignals (CYBSP_BTN_PRESSED : Nat) : Edge → List (Nat × Nat) → List Signal
  | _, [] => []
  | e, i :: rest =>
    match button_interrupt_callback CYBSP_BTN_PRESSED i.1 i.2 e with
    | (e1, none) => edgeSignals CYBSP_BTN_PRESSED e1 rest
    | (e1, some ev) =>
      { code := ev, tick := i.2, duration := e1.button_pushed_duration } ::
        edgeSignals CYBSP_BTN_PRESSED e1 rest

/-- Strict alternation of a signal sequence.  With `pressedAt = none` the
next signal has to be a press; with `pressedAt = some t` it has to be a
release whose duration is the 32-bit difference between its own tick and
`t`, the tick of the press before it. -/
def alternatesFrom : Option Nat → List Signal → Bool
  | _, [] => true
  | none, sig :: rest =>
    decide (sig.code = BUTTON_PRESS) && alternatesFrom (some sig.tick) rest
  | some t, sig :: rest =>
    decide (sig.code = BUTTON_PRESSED ∨ sig.code = BUTTON_LONGPRESSED) &&
      decide (sig.duration = ((sig.tick + 2 ^ 64 - t) % 2 ^ 64) % 2 ^ 32) &&
      alternatesFrom none rest

/-! ## Fast power-off timer, level encoding and flash keys -/

/-- The function `mesh_app_fast_power_off_timer_cb`: the 5-second timer
expired, the counter entry is deleted. -/
def mesh_app_fast_power_off_timer_cb (k : KvResult) (store : Option Nat) : Option Nat :=
  flash_memory_delete k store

/-- One event in the life of the counter entry: a start-up, which runs
`mesh_app_fast_power_off_execute`, or the expiry of the 5-second timer,
which runs `mesh_app_fast_power_off_timer_cb`; each with the outcome of its
store operations. -/
inductive PowerEvent where
  | start_up (k : KvResult)
  | timer_expired (k : KvResult)
deriving DecidableEq, Repr

/-- The counter entry after one event. -/
def powerStep (store : Option Nat) : PowerEvent → Option Nat
  | .start_up k => (mesh_app_fast_power_off_execute k store).1
  | .timer_expired k => mesh_app_fast_power_off_timer_cb k store

/-- The counter entry after a finite sequence of events. -/
def powerRun (store : Option Nat) (events : List PowerEvent) : Option Nat :=
  events.foldl powerStep store

/-- A content of the counter entry is reachable when some finite sequence of
start-ups and timer expiries, store operations failing or not, leads to it
from a store without the entry.  These two functions are the only code that
writes or deletes the entry. -/
def StoreReachable (store : Option Nat) : Prop :=
  ∃ events : List PowerEvent, powerRun none events = store

/-- A 16-bit pattern read as a signed (two's complement) 16-bit integer. -/
def int16_of_uint16 (x : Nat) : Int :=
  if x % 2 ^ 16 < 2 ^ 15 then (x % 2 ^ 16 : Nat) else (x % 2 ^ 16 : Nat) - 2 ^ 16

/-- Macro `FLASH_KEY_BASE (16u)` of `flash_utils.c`. -/
def FLASH_KEY_BASE : Nat := 16

/-- Size in bytes of `char key[]="0000"` in `flash_memory_read` and
`flash_memory_write`: four characters and the terminator. -/
def flash_key_buffer_size : Nat := "0000".length + 1

/-- Modelled from the spec: the C library routine `itoa` is not part of the
sources.  On a non-negative value it renders the digits in the given base,
most significant first, with `0` rendered as one digit. -/
def itoa (value base : Nat) : List Char :=
  if value = 0 then ['0'] else ((Nat.digits base value).reverse.map Nat.digitChar)

/-- The bytes `itoa(config_item_id, key, FLASH_KEY_BASE)` stores into `key`:
the digits followed by the terminating zero byte. -/
def flash_key (config_item_id : Nat) : List Char :=
  itoa config_item_id FLASH_KEY_BASE ++ [Char.ofNat 0]

/-! ## The invariant is inductive -/

theorem Inv_initial : Inv Dimmer.initial := by
  simp [Inv, Dimmer.initial, BUTTON_NUM_STEPS]

theorem Inv_board_task (n : Nat) (s : Dimmer) (h : Inv s) : Inv (board_task n s).1 := by
  obtain ⟨c, p, m, sp, d, pd⟩ := s
  simp only [Inv] at h ⊢
  unfold board_task
  simp only [BUTTON_PRESS, BUTTON_PRESSED, BUTTON_LONGPRESSED, BUTTON_NUM_STEPS]
  split_ifs <;> simp_all
  omega

theorem Inv_button_timer_callback (P : Nat) (v : Bool) (s : Dimmer) (h : Inv s) :
    Inv (button_timer_callback P v s).1 := by
  obtain ⟨c, p, m, sp, d, pd⟩ := s
  simp only [Inv] at h ⊢
  unfold button_timer_callback
  simp only [BUTTON_NUM_STEPS]
  split_ifs <;> simp_all <;> omega

theorem Inv_step (P : Nat) (s : Dimmer) (i : Step) (h : Inv s) : Inv (step P s i).1 := by
  cases i with
  | event e => exact Inv_board_task e.code s h
  | timer v => exact Inv_button_timer_callback P v s h

theorem Inv_run (P : Nat) (steps : List Step) :
    ∀ s : Dimmer, Inv s → Inv (run P s steps) := by
  induction steps with
  | nil => intro s h; exact h
  | cons i rest ih =>
    intro s h
    exact ih (step P s i).1 (Inv_step P s i h)

theorem Inv_of_Reachable (P : Nat) (s : Dimmer) (h : Reachable P s) : Inv s := by
  obtain ⟨steps, rfl⟩ := h
  exact Inv_run P steps Dimmer.initial Inv_initial

/-- Every `mesh_dimmer_set_level` call of the worker records the position the
worker leaves behind. -/
theorem board_task_set_level_index (n : Nat) (s : Dimmer) (a b : Bool) (k : Nat)
    (h : Call.mesh_dimmer_set_level a b k ∈ (board_task n s).2) :
    k = (board_task n s).1.button_step_count := by
  revert h
  unfold board_task
  split_ifs <;> simp

/-- Every `mesh_dimmer_set_level` call of the timer callback records the
position the callback leaves behind. -/
theorem button_timer_callback_set_level_index (P : Nat) (v : Bool) (s : Dimmer)
    (a b : Bool) (k : Nat)
    (h : Call.mesh_dimmer_set_level a b k ∈ (button_timer_callback P v s).2) :
    k = (button_timer_callback P v s).1.button_step_count := by
  revert h
  unfold button_timer_callback
  by_cases hv : v.toNat = P <;> simp only [hv, if_true, if_false] <;> split_ifs <;> simp

theorem step_set_level_index (P : Nat) (s : Dimmer) (i : Step) (a b : Bool) (k : Nat)
    (h : Call.mesh_dimmer_set_level a b k ∈ (step P s i).2) :
    k = (step P s i).1.button_step_count := by
  cases i with
  | event e => exact board_task_set_level_index e.code s a b k h
  | timer v => exact button_timer_callback_set_level_index P v s a b k h

/-- Below index 9 the table read of `mesh_dimmer_set_level` succeeds and the
request carries one of the nine table entries. -/
theorem mesh_dimmer_set_level_in_table (k : Nat) (app : mesh_level_state_t)
    (a b : Bool) (hk : k < 9) :
    ∃ g r, mesh_dimmer_set_level { button_step_count := k, app_state := app } a b = some (g, r) ∧
      r.set_data.level ∈
        [0x8000, 0xA000, 0xC000, 0xE000, 0x0000, 0x2000, 0x4000, 0x6000, 0x7FFF] := by
  have h : k = 0 ∨ k = 1 ∨ k = 2 ∨ k = 3 ∨ k = 4 ∨ k = 5 ∨ k = 6 ∨ k = 7 ∨ k = 8 := by omega
  rcases h with h | h | h | h | h | h | h | h | h <;> subst h <;>
    exact ⟨_, _, rfl, by simp [client_level_step]⟩

/-! ## Claims -/

/-- C1: in every state reachable from the static initialisers by worker
events and timer fires, `button_step_count` is at most 8; a further timer
fire, whatever the pin reads, executes no wrapping `uint8_t` increment or
decrement and so moves the position by at most one. -/
theorem position_in_range (P : Nat) (s : Dimmer) (h : Reachable P s) :
    s.button_step_count ≤ 8 ∧
      ∀ value : Bool,
        timerFireWraps P value s = false ∧
        (button_timer_callback P value s).1.button_step_count ≤ s.button_step_count + 1 ∧
        s.button_step_count ≤ (button_timer_callback P value s).1.button_step_count + 1 := by
  have hi := Inv_of_Reachable P s h
  refine ⟨hi.1, fun value => ?_⟩
  obtain ⟨c, p, m, sp, d, pd⟩ := s
  simp only [Inv] at hi
  unfold timerFireWraps button_timer_callback
  simp only [BUTTON_NUM_STEPS]
  refine ⟨?_, ?_, ?_⟩ <;> split_ifs <;> simp_all <;> omega

/-- Instance of C1 at the state after a press and two timer fires. -/
theorem position_in_range_witness :
    Reachable 0 (run 0 Dimmer.initial [.event .Pressed, .timer false, .timer false]) ∧
      (run 0 Dimmer.initial [.event .Pressed, .timer false, .timer false]).button_step_count ≤ 8 ∧
      ∀ value : Bool,
        timerFireWraps 0 value
            (run 0 Dimmer.initial [.event .Pressed, .timer false, .timer false]) = false ∧
        (button_timer_callback 0 value
            (run 0 Dimmer.initial [.event .Pressed, .timer false, .timer false])).1.button_step_count
          ≤ (run 0 Dimmer.initial
              [.event .Pressed, .timer false, .timer false]).button_step_count + 1 ∧
        (run 0 Dimmer.initial [.event .Pressed, .timer false, .timer false]).button_step_count
          ≤ (button_timer_callback 0 value
              (run 0 Dimmer.initial
                [.event .Pressed, .timer false, .timer false])).1.button_step_count + 1 :=
  ⟨⟨_, rfl⟩, position_in_range 0 _ ⟨_, rfl⟩⟩

/-- C2: for every reachable state and every step taken from it, each
`mesh_dimmer_set_level` call of that step reads `client_level_step` at an
index below 9, so the table read succeeds and the request carries one of the
nine constants of the table. -/
theorem set_level_index_in_table (P : Nat) (s : Dimmer) (i : Step) (a b : Bool) (k : Nat)
    (app : mesh_level_state_t) (h : Reachable P s)
    (hc : Call.mesh_dimmer_set_level a b k ∈ (step P s i).2) :
    k < 9 ∧
      ∃ g r, mesh_dimmer_set_level { button_step_count := k, app_state := app } a b
          = some (g, r) ∧
        r.set_data.level ∈
          [0x8000, 0xA000, 0xC000, 0xE000, 0x0000, 0x2000, 0x4000, 0x6000, 0x7FFF] := by
  have hi := Inv_step P s i (Inv_of_Reachable P s h)
  have hk : k < 9 := by
    rw [step_set_level_index P s i a b k hc]
    have := hi.1
    omega
  exact ⟨hk, mesh_dimmer_set_level_in_table k app a b hk⟩

/-- Instance of C2 at the first short press: the request sent at position 8. -/
theorem set_level_index_in_table_witness :
    Reachable 0 (run 0 Dimmer.initial [.event .Pressed]) ∧
      Call.mesh_dimmer_set_level true true 8
        ∈ (step 0 (run 0 Dimmer.initial [.event .Pressed]) (.event .ReleasedShort)).2 ∧
      8 < 9 ∧
      ∃ g r, mesh_dimmer_set_level
          { button_step_count := 8, app_state := { level_step := 0, remaining_time := 0 } }
          true true = some (g, r) ∧
        r.set_data.level ∈
          [0x8000, 0xA000, 0xC000, 0xE000, 0x0000, 0x2000, 0x4000, 0x6000, 0x7FFF] :=
  ⟨⟨_, rfl⟩, by decide,
    set_level_index_in_table 0 (run 0 Dimmer.initial [.event .Pressed]) (.event .ReleasedShort)
      true true 8 { level_step := 0, remaining_time := 0 } ⟨_, rfl⟩ (by decide)⟩

/-- C3: with the short-press flag set and the position at 0, a short release
moves the position to `previous_level`; the direction becomes increasing if
that level is 0, decreasing if it is 8, and the saved direction otherwise;
`previous_level` and `button_previous_direction` (and both flags) keep their
values, and the only call made is one `mesh_dimmer_set_level(true, true)`. -/
theorem released_short_from_zero (s : Dimmer) (hs : s.button_short_press = true)
    (h0 : s.button_step_count = 0) :
    (board_task BUTTON_PRESSED s).1.button_step_count = s.previous_level ∧
      (board_task BUTTON_PRESSED s).1.button_directon =
        (if s.previous_level = 0 then true
         else if s.previous_level = 8 then false
         else s.button_previous_direction) ∧
      (board_task BUTTON_PRESSED s).1.previous_level = s.previous_level ∧
      (board_task BUTTON_PRESSED s).1.button_previous_direction = s.button_previous_direction ∧
      (board_task BUTTON_PRESSED s).1.button_level_moving = s.button_level_moving ∧
      (board_task BUTTON_PRESSED s).1.button_short_press = s.button_short_press ∧
      (board_task BUTTON_PRESSED s).2 = [.mesh_dimmer_set_level true true s.previous_level] := by
  obtain ⟨c, p, m, sp, d, pd⟩ := s
  simp only at hs h0
  subst hs h0
  unfold board_task
  simp only [BUTTON_PRESS, BUTTON_PRESSED, BUTTON_NUM_STEPS]
  split_ifs <;> simp_all

/-- Instance of C3 at the first short press after start-up. -/
theorem released_short_from_zero_witness :
    (run 0 Dimmer.initial [.event .Pressed]).button_short_press = true ∧
      (run 0 Dimmer.initial [.event .Pressed]).button_step_count = 0 ∧
      (board_task BUTTON_PRESSED (run 0 Dimmer.initial [.event .Pressed])).1.button_step_count = 8 ∧
      (board_task BUTTON_PRESSED (run 0 Dimmer.initial [.event .Pressed])).1.button_directon
        = false ∧
      (board_task BUTTON_PRESSED (run 0 Dimmer.initial [.event .Pressed])).2
        = [.mesh_dimmer_set_level true true 8] :=
  have h := released_short_from_zero (run 0 Dimmer.initial [.event .Pressed]) rfl rfl
  ⟨rfl, rfl, h.1, h.2.1, h.2.2.2.2.2.2⟩

/-- C4: with the short-press flag set and the position not 0, a short release
stores the old position in `previous_level` and the old direction in
`button_previous_direction`, sets the position to 0 and the direction to
increasing, leaves both flags alone, and the only call made is one
`mesh_dimmer_set_level(true, true)`, sent at position 0. -/
theorem released_short_from_nonzero (s : Dimmer) (hs : s.button_short_press = true)
    (h0 : s.button_step_count ≠ 0) :
    board_task BUTTON_PRESSED s =
      ({ button_step_count := 0
         previous_level := s.button_step_count
         button_level_moving := s.button_level_moving
         button_short_press := s.button_short_press
         button_directon := true
         button_previous_direction := s.button_directon },
       [.mesh_dimmer_set_level true true 0]) := by
  obtain ⟨c, p, m, sp, d, pd⟩ := s
  simp only at hs h0
  subst hs
  unfold board_task
  simp only [BUTTON_PRESS, BUTTON_PRESSED]
  simp [h0]

/-- Instance of C4 at the second short press after start-up. -/
theorem released_short_from_nonzero_witness :
    (run 0 Dimmer.initial [.event .Pressed, .event .ReleasedShort, .event .Pressed]
        ).button_short_press = true ∧
      (run 0 Dimmer.initial [.event .Pressed, .event .ReleasedShort, .event .Pressed]
        ).button_step_count ≠ 0 ∧
      board_task BUTTON_PRESSED
          (run 0 Dimmer.initial [.event .Pressed, .event .ReleasedShort, .event .Pressed]) =
        ({ button_step_count := 0
           previous_level := 8
           button_level_moving := false
           button_short_press := true
           button_directon := true
           button_previous_direction := false },
         [.mesh_dimmer_set_level true true 0]) :=
  ⟨rfl, by decide,
    released_short_from_nonzero
      (run 0 Dimmer.initial [.event .Pressed, .event .ReleasedShort, .event .Pressed])
      rfl (by decide)⟩

/-- C5: round trip of the short-press toggle.  From any state (reachable or
not) with the position at 0 and the short-press flag set, a first short
release moves the position to `previous_level`, and a second one, with no
timer fire in between, brings the position back to 0 with `previous_level`
at the value it had before the two releases. -/
theorem short_press_round_trip (s : Dimmer) (hs : s.button_short_press = true)
    (h0 : s.button_step_count = 0) :
    (board_task BUTTON_PRESSED s).1.button_step_count = s.previous_level ∧
      (board_task BUTTON_PRESSED (board_task BUTTON_PRESSED s).1).1.button_step_count = 0 ∧
      (board_task BUTTON_PRESSED (board_task BUTTON_PRESSED s).1).1.previous_level
        = s.previous_level := by
  obtain ⟨c, p, m, sp, d, pd⟩ := s
  simp only at hs h0
  subst hs h0
  unfold board_task
  simp only [BUTTON_PRESS, BUTTON_PRESSED, BUTTON_NUM_STEPS]
  split_ifs <;> simp_all

/-- Instance of C5 at the first two short presses after start-up. -/
theorem short_press_round_trip_witness :
    (run 0 Dimmer.initial [.event .Pressed]).button_short_press = true ∧
      (run 0 Dimmer.initial [.event .Pressed]).button_step_count = 0 ∧
      (board_task BUTTON_PRESSED (run 0 Dimmer.initial [.event .Pressed])).1.button_step_count = 8 ∧
      (board_task BUTTON_PRESSED
          (board_task BUTTON_PRESSED (run 0 Dimmer.initial [.event .Pressed])).1
        ).1.button_step_count = 0 ∧
      (board_task BUTTON_PRESSED
          (board_task BUTTON_PRESSED (run 0 Dimmer.initial [.event .Pressed])).1
        ).1.previous_level = 8 :=
  ⟨rfl, rfl, short_press_round_trip (run 0 Dimmer.initial [.event .Pressed]) rfl rfl⟩

/-- A timer fire that reads the pin as pressed clears the short-press flag. -/
theorem button_timer_callback_clears_short_press (P : Nat) (v : Bool) (s : Dimmer)
    (hv : v.toNat = P) : (button_timer_callback P v s).1.button_short_press = false := by
  unfold button_timer_callback
  simp only [hv, if_true]
  split_ifs <;> rfl

theorem run_append_singleton (P : Nat) (s : Dimmer) (steps : List Step) (i : Step) :
    run P s (steps ++ [i]) = (step P (run P s steps) i).1 := by
  simp [run, List.foldl_append]

/-- A short release with the short-press flag clear only clears the moving
flag and stops the button timer. -/
theorem board_task_released_short_hold (s : Dimmer) (hs : s.button_short_press = false) :
    board_task BUTTON_PRESSED s =
      ({ s with button_level_moving := false }, [.xTimerStop .button_timer_handle]) := by
  unfold board_task
  simp [BUTTON_PRESS, BUTTON_PRESSED, hs]

/-- C6: in a state whose short-press flag is clear, a short release stops the
button timer and clears the moving flag; position, `previous_level` and both
directions keep their values and no `mesh_dimmer_set_level` call is made.
The flag is clear, and so all of this holds, after a press followed by
`k + 1` timer fires that read the pin as pressed, from any state `s0`. -/
theorem released_short_after_hold (P : Nat) (v : Bool) (s0 s : Dimmer) (k : Nat)
    (hs : s.button_short_press = false) (hv : v.toNat = P) :
    (board_task BUTTON_PRESSED s =
        ({ s with button_level_moving := false }, [.xTimerStop .button_timer_handle]) ∧
      (∀ a, timerActive .button_timer_handle a (board_task BUTTON_PRESSED s).2 = false) ∧
      (board_task BUTTON_PRESSED s).2.any Call.isSetLevel = false ∧
      (board_task BUTTON_PRESSED s).1.button_level_moving = false ∧
      (board_task BUTTON_PRESSED s).1.button_step_count = s.button_step_count ∧
      (board_task BUTTON_PRESSED s).1.previous_level = s.previous_level ∧
      (board_task BUTTON_PRESSED s).1.button_directon = s.button_directon ∧
      (board_task BUTTON_PRESSED s).1.button_previous_direction = s.button_previous_direction) ∧
    (run P s0 (.event .Pressed :: List.replicate (k + 1) (.timer v))).button_short_press
        = false ∧
    board_task BUTTON_PRESSED (run P s0 (.event .Pressed :: List.replicate (k + 1) (.timer v))) =
      ({ run P s0 (.event .Pressed :: List.replicate (k + 1) (.timer v)) with
          button_level_moving := false },
        [.xTimerStop .button_timer_handle]) := by
  have hrun : (run P s0 (.event .Pressed :: List.replicate (k + 1) (.timer v))).button_short_press
      = false := by
    rw [List.replicate_succ', ← List.cons_append, run_append_singleton]
    exact button_timer_callback_clears_short_press P v _ hv
  refine ⟨?_, hrun, board_task_released_short_hold _ hrun⟩
  rw [board_task_released_short_hold s hs]
  simp [timerActive, Call.timerAfter, Call.isSetLevel]

/-- Instance of C6 after a press and three timer fires with the pin low. -/
theorem released_short_after_hold_witness :
    (run 0 Dimmer.initial [.event .Pressed, .timer false]).button_short_press = false ∧
      false.toNat = 0 ∧
      (run 0 Dimmer.initial (.event .Pressed :: List.replicate (2 + 1) (.timer false))
        ).button_short_press = false ∧
      board_task BUTTON_PRESSED
          (run 0 Dimmer.initial (.event .Pressed :: List.replicate (2 + 1) (.timer false))) =
        ({ run 0 Dimmer.initial (.event .Pressed :: List.replicate (2 + 1) (.timer false)) with
            button_level_moving := false },
          [.xTimerStop .button_timer_handle]) :=
  ⟨rfl, rfl,
    (released_short_after_hold 0 false Dimmer.initial
      (run 0 Dimmer.initial [.event .Pressed, .timer false]) 2 rfl rfl).2⟩

/-- C7: in every state a long release stops the button timer, clears the
moving flag and nothing else, calls `mesh_application_factory_reset` exactly
once and makes no `mesh_dimmer_set_level` call. -/
theorem released_long (s : Dimmer) :
    board_task BUTTON_LONGPRESSED s =
        ({ s with button_level_moving := false },
          [.xTimerStopFromISR .button_timer_handle, .mesh_application_factory_reset]) ∧
      (∀ a, timerActive .button_timer_handle a (board_task BUTTON_LONGPRESSED s).2 = false) ∧
      (board_task BUTTON_LONGPRESSED s).1.button_level_moving = false ∧
      (board_task BUTTON_LONGPRESSED s).2.count .mesh_application_factory_reset = 1 ∧
      ((board_task BUTTON_LONGPRESSED s).2.filter Call.isSetLevel).length = 0 := by
  have h : board_task BUTTON_LONGPRESSED s =
      ({ s with button_level_moving := false },
        [.xTimerStopFromISR .button_timer_handle, .mesh_application_factory_reset]) := by
    unfold board_task
    simp [BUTTON_PRESS, BUTTON_PRESSED, BUTTON_LONGPRESSED]
  rw [h]
  refine ⟨rfl, ?_, rfl, ?_, ?_⟩
  · simp [timerActive, Call.timerAfter]
  · simp
  · simp [Call.isSetLevel]

/-- The stored duration of `button_interrupt_callback`: the 64-bit difference
cut to 32 bits is the difference of the two tick values modulo `2 ^ 32`. -/
theorem held_duration_mod (now p : Nat) (hp : p < 2 ^ 64) :
    ((((now + 2 ^ 64 - p) % 2 ^ 64) % 2 ^ 32 : Nat) : Int)
      = ((now : Int) - (p : Int)) % 2 ^ 32 := by
  norm_num at hp ⊢
  omega

/-- C8 as stated fails: the fast power-off path of `mesh_app.c` also calls
`mesh_application_factory_reset`.  With the counter byte 4 in flash and all
store operations succeeding, the run that follows calls it. -/
theorem factory_reset_only_long_release_counterexample :
    ¬ (Call.mesh_application_factory_reset ∉
        (mesh_app_fast_power_off_execute
          { read_ok := true, write_ok := true, delete_ok := true } (some 4)).2) := by
  decide

/-- C8, amended: a step of the dimmer state machine calls
`mesh_application_factory_reset` exactly when it is the long release (no
press, no short release and no timer fire does); outside the state machine,
`mesh_app_fast_power_off_execute` calls it exactly when its counter has
reached `MESH_APP_FAST_POWER_OFF_NUM`. -/
theorem factory_reset_callers (P : Nat) (s : Dimmer) (i : Step) (k : KvResult)
    (store : Option Nat) :
    (Call.mesh_application_factory_reset ∈ (step P s i).2 ↔ i = .event .ReleasedLong) ∧
      (Call.mesh_application_factory_reset ∈ (mesh_app_fast_power_off_execute k store).2 ↔
        MESH_APP_FAST_POWER_OFF_NUM ≤ fastPowerOffCount k store) := by
  constructor
  · cases i with
    | event e =>
      cases e
      · simp [step, board_task, ButtonEvent.code, BUTTON_PRESS]
      · simp only [step, board_task, ButtonEvent.code, BUTTON_PRESS, BUTTON_PRESSED]
        split_ifs <;> simp
      · simp [step, board_task, ButtonEvent.code, BUTTON_PRESS, BUTTON_PRESSED,
          BUTTON_LONGPRESSED]
    | timer v =>
      simp only [step, reduceCtorEq, iff_false]
      unfold button_timer_callback
      by_cases hv : v.toNat = P <;> simp only [hv, if_true, if_false] <;> split_ifs <;> simp
  · unfold mesh_app_fast_power_off_execute
    by_cases h : MESH_APP_FAST_POWER_OFF_NUM ≤ fastPowerOffCount k store
    · simp [h]
    · simp only [h, if_false, iff_false]
      split_ifs <;> simp

/-- C9: on an edge to the released level the handler records the held
duration `current_time - button_pushed_time` (taken modulo `2 ^ 32`, which is
the plain difference when the tick counter has not wrapped since the press)
and posts `BUTTON_LONGPRESSED` exactly when that duration is at least 10000
and `BUTTON_PRESSED` exactly when it is below. -/
theorem release_classification (P value now : Nat) (e : Edge)
    (hedge : value ≠ e.button_previous_value) (hrel : value ≠ P)
    (hnow : now < 2 ^ 32) (hp : e.button_pushed_time < 2 ^ 64) :
    ((button_interrupt_callback P value now e).1.button_pushed_duration : Int)
        = ((now : Int) - (e.button_pushed_time : Int)) % 2 ^ 32 ∧
      (e.button_pushed_time ≤ now →
        (button_interrupt_callback P value now e).1.button_pushed_duration
          = now - e.button_pushed_time) ∧
      ((button_interrupt_callback P value now e).2 = some BUTTON_LONGPRESSED ↔
        10000 ≤ (button_interrupt_callback P value now e).1.button_pushed_duration) ∧
      ((button_interrupt_callback P value now e).2 = some BUTTON_PRESSED ↔
        (button_interrupt_callback P value now e).1.button_pushed_duration < 10000) := by
  have hd := held_duration_mod now e.button_pushed_time hp
  have hm : e.button_pushed_time ≤ now →
      ((now + 2 ^ 64 - e.button_pushed_time) % 2 ^ 64) % 2 ^ 32 = now - e.button_pushed_time := by
    intro h
    norm_num at hnow ⊢
    omega
  unfold button_interrupt_callback
  simp only [hedge, hrel, if_false, BUTTON_LONGPRESS_INTERVAL, BUTTON_PRESSED,
    BUTTON_LONGPRESSED]
  refine ⟨hd, hm, ?_, ?_⟩ <;> split_ifs <;> simp <;> omega

/-- Instance of C9 at both sides of the threshold: 10000 ticks and 9999 ticks. -/
theorem release_classification_witness :
    ((1 : Nat) ≠ (Edge.mk 0 500 0).button_previous_value ∧ (1 : Nat) ≠ 0 ∧
        (10500 : Nat) < 2 ^ 32 ∧ (Edge.mk 0 500 0).button_pushed_time < 2 ^ 64) ∧
      (button_interrupt_callback 0 1 10500 (Edge.mk 0 500 0)).1.button_pushed_duration = 10000 ∧
      (button_interrupt_callback 0 1 10500 (Edge.mk 0 500 0)).2 = some BUTTON_LONGPRESSED ∧
      (button_interrupt_callback 0 1 10499 (Edge.mk 0 500 0)).1.button_pushed_duration = 9999 ∧
      (button_interrupt_callback 0 1 10499 (Edge.mk 0 500 0)).2 = some BUTTON_PRESSED :=
  ⟨⟨by decide, by decide, by norm_num, by norm_num⟩,
    (release_classification 0 1 10500 (Edge.mk 0 500 0) (by decide) (by decide)
      (by norm_num) (by norm_num)).2.1 (by decide),
    (release_classification 0 1 10500 (Edge.mk 0 500 0) (by decide) (by decide)
      (by norm_num) (by norm_num)).2.2.1.mpr (by decide),
    (release_classification 0 1 10499 (Edge.mk 0 500 0) (by decide) (by decide)
      (by norm_num) (by norm_num)).2.1 (by decide),
    (release_classification 0 1 10499 (Edge.mk 0 500 0) (by decide) (by decide)
      (by norm_num) (by norm_num)).2.2.2.mpr (by decide)⟩

/-- C10: an interrupt that reads the level already recorded in
`button_previous_value` changes nothing (level, press time stamp and
duration keep their values) and posts no event, whatever the tick count. -/
theorem debounce_same_level (P value now : Nat) (e : Edge)
    (hsame : value = e.button_previous_value) :
    button_interrupt_callback P value now e = (e, none) := by
  unfold button_interrupt_callback
  simp [hsame]

/-- Instance of C10 at start-up: the pin still reads the recorded level 1. -/
theorem debounce_same_level_witness :
    (1 : Nat) = Edge.initial.button_previous_value ∧
      button_interrupt_callback 0 1 1234 Edge.initial = (Edge.initial, none) :=
  ⟨rfl, debounce_same_level 0 1 1234 Edge.initial rfl⟩

/-! ## Hold ramp, first fire and press claims -/

/-- A held fire at position 7 with the direction increasing reaches 8, flips
the direction and stops the timer it has just restarted. -/
theorem button_timer_callback_at_seven (P : Nat) (v : Bool) (t : Dimmer)
    (hd : t.button_directon = true) (h7 : t.button_step_count = 7) (hv : v.toNat = P) :
    button_timer_callback P v t =
      ({ button_step_count := 8
         previous_level := 8
         button_level_moving := true
         button_short_press := false
         button_directon := false
         button_previous_direction := t.button_previous_direction },
       [.xTimerStartFromISR .button_timer_handle, .xTimerStopFromISR .button_timer_handle,
        .mesh_dimmer_set_level false true 8]) := by
  obtain ⟨c, p, m, sp, d, pd⟩ := t
  simp only at hd h7
  subst hd h7
  unfold button_timer_callback
  simp [hv, BUTTON_NUM_STEPS]


/-- A held fire below position 7 with the direction increasing: one step up,
the timer restarted, one `mesh_dimmer_set_level(false, false)` call. -/
theorem button_timer_callback_step_up (P : Nat) (v : Bool) (t : Dimmer) (hv : v.toNat = P)
    (hd : t.button_directon = true) (hc : t.button_step_count < 7) :
    button_timer_callback P v t =
      ({ button_step_count := t.button_step_count + 1
         previous_level := t.button_step_count + 1
         button_level_moving := true
         button_short_press := false
         button_directon := true
         button_previous_direction := t.button_previous_direction },
       [.xTimerStartFromISR .button_timer_handle,
        .mesh_dimmer_set_level false false (t.button_step_count + 1)]) := by
  obtain ⟨c, p, m, sp, d, pd⟩ := t
  simp only at hd hc
  subst hd
  have h1 : (c + 1) % 256 = c + 1 := by omega
  have h2 : c + 1 ≠ 8 := by omega
  unfold button_timer_callback
  simp [hv, BUTTON_NUM_STEPS, h1, h2]

/-- After a press at position 0 with the direction increasing, `j ≤ 7` held
fires leave the position at `j` with the direction still increasing. -/
theorem run_hold_up (P : Nat) (v : Bool) (s : Dimmer) (hv : v.toNat = P)
    (h0 : s.button_step_count = 0) (hd : s.button_directon = true) :
    ∀ j, j ≤ 7 →
      (run P s (.event .Pressed :: List.replicate j (.timer v))).button_step_count = j ∧
      (run P s (.event .Pressed :: List.replicate j (.timer v))).button_directon = true := by
  intro j
  induction j with
  | zero =>
    intro _
    simp [run, step, board_task, ButtonEvent.code, BUTTON_PRESS, h0, hd]
  | succ n ih =>
    intro hn
    have hprev := ih (by omega)
    rw [List.replicate_succ', ← List.cons_append, run_append_singleton]
    simp only [step]
    rw [button_timer_callback_step_up P v _ hv hprev.2 (by rw [hprev.1]; omega)]
    simp [hprev.1]



/-- C11: in a reachable state, a timer fire that leaves the machine moving
and whose new position is not the boundary ahead (8 when increasing, 0 when
decreasing) moves the position by exactly one in the current direction,
stores the new position in `previous_level`, keeps the direction, makes
exactly one `mesh_dimmer_set_level(false, false)` call and no call that
stops the timer. -/
theorem hold_ramp_interior (P : Nat) (v : Bool) (s : Dimmer) (h : Reachable P s)
    (hm : (button_timer_callback P v s).1.button_level_moving = true)
    (hb : (button_timer_callback P v s).1.button_step_count
      ≠ (if s.button_directon = true then 8 else 0)) :
    (s.button_directon = true →
        (button_timer_callback P v s).1.button_step_count = s.button_step_count + 1) ∧
      (s.button_directon = false →
        (button_timer_callback P v s).1.button_step_count + 1 = s.button_step_count) ∧
      (button_timer_callback P v s).1.previous_level
        = (button_timer_callback P v s).1.button_step_count ∧
      (button_timer_callback P v s).1.button_directon = s.button_directon ∧
      (button_timer_callback P v s).2 =
        (if v.toNat = P then [Call.xTimerStartFromISR .button_timer_handle] else []) ++
          [.mesh_dimmer_set_level false false
            (button_timer_callback P v s).1.button_step_count] ∧
      (button_timer_callback P v s).2.filter Call.isSetLevel =
        [.mesh_dimmer_set_level false false
          (button_timer_callback P v s).1.button_step_count] ∧
      Call.xTimerStop .button_timer_handle ∉ (button_timer_callback P v s).2 ∧
      Call.xTimerStopFromISR .button_timer_handle ∉ (button_timer_callback P v s).2 := by
  have hi := Inv_of_Reachable P s h
  obtain ⟨c, p, m, sp, d, pd⟩ := s
  simp only [Inv] at hi
  revert hm hb
  unfold button_timer_callback
  simp only [BUTTON_NUM_STEPS]
  by_cases hv : v.toNat = P <;> simp only [hv, if_true, if_false] <;> split_ifs <;>
    simp_all [Call.isSetLevel] <;> omega

/-- Instance of C11 at the third held fire after a press from start-up. -/
theorem hold_ramp_interior_witness :
    Reachable 0 (run 0 Dimmer.initial [.event .Pressed, .timer false, .timer false]) ∧
      (button_timer_callback 0 false
        (run 0 Dimmer.initial [.event .Pressed, .timer false, .timer false])
        ).1.button_level_moving = true ∧
      (button_timer_callback 0 false
        (run 0 Dimmer.initial [.event .Pressed, .timer false, .timer false])
        ).1.button_step_count ≠ 8 ∧
      (button_timer_callback 0 false
        (run 0 Dimmer.initial [.event .Pressed, .timer false, .timer false])
        ).1.button_step_count = 2 + 1 ∧
      (button_timer_callback 0 false
        (run 0 Dimmer.initial [.event .Pressed, .timer false, .timer false])
        ).2.filter Call.isSetLevel = [.mesh_dimmer_set_level false false 3] :=
  ⟨⟨_, rfl⟩, rfl, by decide,
    (hold_ramp_interior 0 false
      (run 0 Dimmer.initial [.event .Pressed, .timer false, .timer false])
      ⟨_, rfl⟩ rfl (by decide)).1 rfl,
    (hold_ramp_interior 0 false
      (run 0 Dimmer.initial [.event .Pressed, .timer false, .timer false])
      ⟨_, rfl⟩ rfl (by decide)).2.2.2.2.2.1⟩

/-- C12: with the direction increasing and the position at 7 (in any state,
reachable or not), a timer fire that reads the pin as pressed sets the
position to 8, flips the direction to decreasing, stores 8 in
`previous_level`, restarts and then stops the timer, which leaves it
stopped, and makes exactly one `mesh_dimmer_set_level(false, true)` call. -/
theorem hold_ramp_ceiling (P : Nat) (v : Bool) (s : Dimmer)
    (hd : s.button_directon = true) (h7 : s.button_step_count = 7) (hv : v.toNat = P) :
    button_timer_callback P v s =
        ({ button_step_count := 8
           previous_level := 8
           button_level_moving := true
           button_short_press := false
           button_directon := false
           button_previous_direction := s.button_previous_direction },
         [.xTimerStartFromISR .button_timer_handle, .xTimerStopFromISR .button_timer_handle,
          .mesh_dimmer_set_level false true 8]) ∧
      (∀ a, timerActive .button_timer_handle a (button_timer_callback P v s).2 = false) ∧
      (button_timer_callback P v s).2.filter Call.isSetLevel
        = [.mesh_dimmer_set_level false true 8] := by
  have h := button_timer_callback_at_seven P v s hd h7 hv
  rw [h]
  refine ⟨rfl, ?_, ?_⟩
  · simp [timerActive, Call.timerAfter]
  · simp [Call.isSetLevel]

/-- Instance of C12 after a press and seven held fires from start-up. -/
theorem hold_ramp_ceiling_witness :
    (run 0 Dimmer.initial (.event .Pressed :: List.replicate 7 (.timer false))).button_directon
        = true ∧
      (run 0 Dimmer.initial (.event .Pressed :: List.replicate 7 (.timer false))).button_step_count
        = 7 ∧
      false.toNat = 0 ∧
      (button_timer_callback 0 false
          (run 0 Dimmer.initial (.event .Pressed :: List.replicate 7 (.timer false)))
        ).2.filter Call.isSetLevel = [.mesh_dimmer_set_level false true 8] :=
  ⟨rfl, rfl, rfl,
    (hold_ramp_ceiling 0 false
      (run 0 Dimmer.initial (.event .Pressed :: List.replicate 7 (.timer false)))
      rfl rfl rfl).2.2⟩

/-- C13 as stated fails at the floor.  After a short press to position 8 and
a hold that has walked down to 1, the next held fire reaches 0 and flips the
direction to increasing, but stores 8, not 0, in `previous_level`. -/
theorem boundary_previous_level_counterexample :
    (run 0 Dimmer.initial
        (.event .Pressed :: .event .ReleasedShort :: .event .Pressed ::
          List.replicate 7 (.timer false))).button_step_count = 1 ∧
      (run 0 Dimmer.initial
        (.event .Pressed :: .event .ReleasedShort :: .event .Pressed ::
          List.replicate 8 (.timer false))).button_step_count = 0 ∧
      (run 0 Dimmer.initial
        (.event .Pressed :: .event .ReleasedShort :: .event .Pressed ::
          List.replicate 7 (.timer false))).button_directon = false ∧
      (run 0 Dimmer.initial
        (.event .Pressed :: .event .ReleasedShort :: .event .Pressed ::
          List.replicate 8 (.timer false))).button_directon = true ∧
      ¬ ((run 0 Dimmer.initial
        (.event .Pressed :: .event .ReleasedShort :: .event .Pressed ::
          List.replicate 8 (.timer false))).previous_level = 0) := by
  decide

/-- C13, amended: in a reachable state, a timer fire that leaves the machine
moving and brings the position onto 0 or onto 8 flips the direction at that
fire (to decreasing at 8, to increasing at 0), and `previous_level` is 8
afterwards in both cases: the index just reached at the ceiling, and the
last index again at the floor. -/
theorem boundary_flip (P : Nat) (v : Bool) (s : Dimmer) (h : Reachable P s)
    (hm : (button_timer_callback P v s).1.button_level_moving = true)
    (hb : (button_timer_callback P v s).1.button_step_count = 0 ∨
      (button_timer_callback P v s).1.button_step_count = 8) :
    (button_timer_callback P v s).1.button_directon = !s.button_directon ∧
      ((button_timer_callback P v s).1.button_step_count = 8 →
        s.button_step_count = 7 ∧ (button_timer_callback P v s).1.button_directon = false) ∧
      ((button_timer_callback P v s).1.button_step_count = 0 →
        s.button_step_count = 1 ∧ (button_timer_callback P v s).1.button_directon = true) ∧
      (button_timer_callback P v s).1.previous_level = 8 := by
  have hi := Inv_of_Reachable P s h
  obtain ⟨c, p, m, sp, d, pd⟩ := s
  simp only [Inv] at hi
  revert hm hb
  unfold button_timer_callback
  simp only [BUTTON_NUM_STEPS]
  cases d <;> cases m <;> by_cases hv : v.toNat = P <;> simp only [hv, if_true, if_false] <;>
    split_ifs <;> simp_all <;> omega

/-- Instance of the amended C13 at the floor: the fire from position 1. -/
theorem boundary_flip_witness :
    Reachable 0 (run 0 Dimmer.initial
        (.event .Pressed :: .event .ReleasedShort :: .event .Pressed ::
          List.replicate 7 (.timer false))) ∧
      (button_timer_callback 0 false (run 0 Dimmer.initial
        (.event .Pressed :: .event .ReleasedShort :: .event .Pressed ::
          List.replicate 7 (.timer false)))).1.button_level_moving = true ∧
      (button_timer_callback 0 false (run 0 Dimmer.initial
        (.event .Pressed :: .event .ReleasedShort :: .event .Pressed ::
          List.replicate 7 (.timer false)))).1.button_step_count = 0 ∧
      (button_timer_callback 0 false (run 0 Dimmer.initial
        (.event .Pressed :: .event .ReleasedShort :: .event .Pressed ::
          List.replicate 7 (.timer false)))).1.previous_level = 8 :=
  ⟨⟨_, rfl⟩, rfl, rfl,
    (boundary_flip 0 false
      (run 0 Dimmer.initial
        (.event .Pressed :: .event .ReleasedShort :: .event .Pressed ::
          List.replicate 7 (.timer false)))
      ⟨_, rfl⟩ rfl (Or.inl rfl)).2.2.2⟩

/-- C14: in a reachable state, a timer fire changes the direction exactly
when it moves the position onto 0 or onto 8. -/
theorem direction_changes_iff_boundary (P : Nat) (v : Bool) (s : Dimmer)
    (h : Reachable P s) :
    (button_timer_callback P v s).1.button_directon ≠ s.button_directon ↔
      ((button_timer_callback P v s).1.button_step_count ≠ s.button_step_count ∧
        ((button_timer_callback P v s).1.button_step_count = 0 ∨
          (button_timer_callback P v s).1.button_step_count = 8)) := by
  have hi := Inv_of_Reachable P s h
  obtain ⟨c, p, m, sp, d, pd⟩ := s
  simp only [Inv] at hi
  unfold button_timer_callback
  simp only [BUTTON_NUM_STEPS]
  by_cases hv : v.toNat = P <;> simp only [hv, if_true, if_false] <;> split_ifs <;>
    simp_all <;> omega

/-- Instance of C14 at the ceiling: the fire from position 7 flips the direction. -/
theorem direction_changes_iff_boundary_witness :
    Reachable 0 (run 0 Dimmer.initial (.event .Pressed :: List.replicate 7 (.timer false))) ∧
      (button_timer_callback 0 false
          (run 0 Dimmer.initial (.event .Pressed :: List.replicate 7 (.timer false)))
        ).1.button_directon
        ≠ (run 0 Dimmer.initial
            (.event .Pressed :: List.replicate 7 (.timer false))).button_directon :=
  ⟨⟨_, rfl⟩,
    (direction_changes_iff_boundary 0 false
      (run 0 Dimmer.initial (.event .Pressed :: List.replicate 7 (.timer false)))
      ⟨_, rfl⟩).mpr ⟨by decide, Or.inr rfl⟩⟩

/-- C15: from any state with the position at 0 and the direction increasing,
a press followed by fires that read the pin as pressed walks the position up
one step per fire to 8.  Each of the first seven fires restarts the timer
and makes one `mesh_dimmer_set_level(false, false)` call; the eighth flips
the direction to decreasing, makes exactly one
`mesh_dimmer_set_level(false, true)` call and leaves the timer stopped, and
neither kind of release event starts it again. -/
theorem hold_walks_to_ceiling (P : Nat) (v : Bool) (s : Dimmer) (hv : v.toNat = P)
    (h0 : s.button_step_count = 0) (hd : s.button_directon = true) :
    (∀ j, j ≤ 8 →
        (run P s (.event .Pressed :: List.replicate j (.timer v))).button_step_count = j) ∧
      (∀ j, j < 7 →
        (step P (run P s (.event .Pressed :: List.replicate j (.timer v))) (.timer v)).2 =
          [.xTimerStartFromISR .button_timer_handle,
           .mesh_dimmer_set_level false false (j + 1)]) ∧
      (step P (run P s (.event .Pressed :: List.replicate 7 (.timer v))) (.timer v)).2 =
        [.xTimerStartFromISR .button_timer_handle, .xTimerStopFromISR .button_timer_handle,
         .mesh_dimmer_set_level false true 8] ∧
      (run P s (.event .Pressed :: List.replicate 8 (.timer v))).button_directon = false ∧
      (∀ a, timerActive .button_timer_handle a
        (step P (run P s (.event .Pressed :: List.replicate 7 (.timer v))) (.timer v)).2
          = false) ∧
      (∀ (t : Dimmer) (e : ButtonEvent), e ≠ .Pressed →
        timerActive .button_timer_handle false (board_task e.code t).2 = false) := by
  have hup := run_hold_up P v s hv h0 hd
  have h7 := hup 7 (le_refl 7)
  have hlast := button_timer_callback_at_seven P v _ h7.2 h7.1 hv
  have h8 : run P s (.event .Pressed :: List.replicate 8 (.timer v)) =
      (step P (run P s (.event .Pressed :: List.replicate 7 (.timer v))) (.timer v)).1 := by
    rw [show (8 : Nat) = 7 + 1 from rfl, List.replicate_succ', ← List.cons_append,
      run_append_singleton]
  refine ⟨?_, ?_, ?_, ?_, ?_, ?_⟩
  · intro j hj
    rcases Nat.lt_or_ge j 8 with hlt | hge
    · exact (hup j (by omega)).1
    · have : j = 8 := by omega
      subst this
      rw [h8]
      simp only [step]
      rw [hlast]
  · intro j hj
    have hj2 := hup j (by omega)
    simp only [step]
    rw [button_timer_callback_step_up P v _ hv hj2.2 (by rw [hj2.1]; exact hj)]
    simp [hj2.1]
  · simp only [step]
    rw [hlast]
  · rw [h8]
    simp only [step]
    rw [hlast]
  · intro a
    simp only [step]
    rw [hlast]
    simp [timerActive, Call.timerAfter]
  · intro t e he
    cases e with
    | Pressed => exact absurd rfl he
    | ReleasedShort =>
      by_cases hs : t.button_short_press = true <;>
        by_cases hc : t.button_step_count = 0 <;>
        simp [board_task, ButtonEvent.code, BUTTON_PRESS, BUTTON_PRESSED, timerActive,
          Call.timerAfter, hs, hc]
    | ReleasedLong =>
      simp [board_task, ButtonEvent.code, BUTTON_PRESS, BUTTON_PRESSED, BUTTON_LONGPRESSED,
        timerActive, Call.timerAfter]

/-- Instance of C15 from start-up with the pin reading 0 as pressed. -/
theorem hold_walks_to_ceiling_witness :
    false.toNat = 0 ∧ Dimmer.initial.button_step_count = 0 ∧
      Dimmer.initial.button_directon = true ∧
      (run 0 Dimmer.initial
        (.event .Pressed :: List.replicate 8 (.timer false))).button_step_count = 8 ∧
      (run 0 Dimmer.initial
        (.event .Pressed :: List.replicate 8 (.timer false))).button_directon = false :=
  ⟨rfl, rfl, rfl,
    (hold_walks_to_ceiling 0 false Dimmer.initial rfl rfl rfl).1 8 (le_refl 8),
    (hold_walks_to_ceiling 0 false Dimmer.initial rfl rfl rfl).2.2.2.1⟩

/-- C16 as stated fails: the first fire after a press does not only arm.  From
position 8 with the direction decreasing and the machine not moving, a press
and one fire that reads the pin as pressed already moves the position to 7
and makes a `mesh_dimmer_set_level(false, false)` call. -/
theorem first_fire_only_arms_counterexample :
    (run 0 Dimmer.initial [.event .Pressed, .event .ReleasedShort]).button_step_count = 8 ∧
      (run 0 Dimmer.initial [.event .Pressed, .event .ReleasedShort]).button_directon = false ∧
      (run 0 Dimmer.initial [.event .Pressed, .event .ReleasedShort]).button_level_moving
        = false ∧
      ¬ ((step 0 (run 0 Dimmer.initial [.event .Pressed, .event .ReleasedShort, .event .Pressed])
            (.timer false)).1.button_step_count
          = (run 0 Dimmer.initial [.event .Pressed, .event .ReleasedShort]).button_step_count) ∧
      ¬ ((step 0 (run 0 Dimmer.initial [.event .Pressed, .event .ReleasedShort, .event .Pressed])
            (.timer false)).2.any Call.isSetLevel = false) := by
  decide

/-- C16, amended: in a reachable state, after a press the first timer fire
that reads the pin as pressed sets the moving flag, clears the short-press
flag and already moves the position by one step in the current direction,
with exactly one `mesh_dimmer_set_level` call, whose instant flag is false
and whose final flag is set exactly when the new position is 0 or 8. -/
theorem first_fire_arms_and_advances (P : Nat) (v : Bool) (s : Dimmer) (h : Reachable P s)
    (hv : v.toNat = P) :
    (button_timer_callback P v (board_task BUTTON_PRESS s).1).1.button_level_moving = true ∧
      (button_timer_callback P v (board_task BUTTON_PRESS s).1).1.button_short_press = false ∧
      (s.button_directon = true →
        (button_timer_callback P v (board_task BUTTON_PRESS s).1).1.button_step_count
          = s.button_step_count + 1) ∧
      (s.button_directon = false →
        (button_timer_callback P v (board_task BUTTON_PRESS s).1).1.button_step_count + 1
          = s.button_step_count) ∧
      (button_timer_callback P v (board_task BUTTON_PRESS s).1).2.filter Call.isSetLevel =
        [.mesh_dimmer_set_level false
          (decide
            ((button_timer_callback P v (board_task BUTTON_PRESS s).1).1.button_step_count = 0 ∨
             (button_timer_callback P v (board_task BUTTON_PRESS s).1).1.button_step_count = 8))
          (button_timer_callback P v (board_task BUTTON_PRESS s).1).1.button_step_count] := by
  have hi := Inv_of_Reachable P s h
  obtain ⟨c, p, m, sp, d, pd⟩ := s
  simp only [Inv] at hi
  unfold button_timer_callback board_task
  simp only [BUTTON_NUM_STEPS, BUTTON_PRESS, hv, if_true]
  cases d <;> split_ifs <;> simp_all [Call.isSetLevel] <;> omega

/-- Instance of the amended C16: from position 8 with the direction
decreasing the first held fire after the press moves to 7. -/
theorem first_fire_arms_and_advances_witness :
    Reachable 0 (run 0 Dimmer.initial [.event .Pressed, .event .ReleasedShort]) ∧
      false.toNat = 0 ∧
      (button_timer_callback 0 false
        (board_task BUTTON_PRESS
          (run 0 Dimmer.initial [.event .Pressed, .event .ReleasedShort])).1
        ).1.button_step_count + 1 = 8 ∧
      (button_timer_callback 0 false
        (board_task BUTTON_PRESS
          (run 0 Dimmer.initial [.event .Pressed, .event .ReleasedShort])).1
        ).2.filter Call.isSetLevel = [.mesh_dimmer_set_level false false 7] :=
  ⟨⟨_, rfl⟩, rfl,
    (first_fire_arms_and_advances 0 false
      (run 0 Dimmer.initial [.event .Pressed, .event .ReleasedShort]) ⟨_, rfl⟩ rfl).2.2.2.1 rfl,
    (first_fire_arms_and_advances 0 false
      (run 0 Dimmer.initial [.event .Pressed, .event .ReleasedShort]) ⟨_, rfl⟩ rfl).2.2.2.2⟩

/-- C17: from the static initialisers, a press followed by a short release
with no timer fire in between leaves the position at 8; the two steps make
exactly one `mesh_dimmer_set_level` call, with instant and final both true,
read at index 8, and the request built there carries the level
`client_level_step[8] = 0x7FFF`. -/
theorem first_short_press (app : mesh_level_state_t) :
    (run 0 Dimmer.initial [.event .Pressed, .event .ReleasedShort]).button_step_count = 8 ∧
      ((step 0 Dimmer.initial (.event .Pressed)).2 ++
        (step 0 (run 0 Dimmer.initial [.event .Pressed]) (.event .ReleasedShort)).2
        ).filter Call.isSetLevel = [.mesh_dimmer_set_level true true 8] ∧
      client_level_step[8]? = some 0x7FFF ∧
      mesh_dimmer_set_level { button_step_count := 8, app_state := app } true true =
        some ({ button_step_count := 8,
                app_state := { level_step := 0x7FFF % 256, remaining_time := 100 } },
              { element_idx := 0, is_final := true,
                set_data := { level := 0x7FFF, transition_time := 100, delay := 0 } }) := by
  refine ⟨by decide, by decide, by decide, ?_⟩
  simp [mesh_dimmer_set_level, client_level_step]

/-- C18: at every position below 9 and for every pair of flags,
`mesh_dimmer_set_level` sends one request whose level is the table entry at
the position, whose transition time is 100 when `is_instant` is set and 500
otherwise, whose delay is 0 and whose final flag is `is_final`; it writes
`app_state` only, so `button_step_count` keeps its value (the other dimmer
globals are `static` in `board.c` and out of its reach). -/
theorem set_level_request (g : SwitchDimmer) (is_instant is_final : Bool)
    (hk : g.button_step_count < 9) :
    ∃ level, client_level_step[g.button_step_count]? = some level ∧
      mesh_dimmer_set_level g is_instant is_final =
        some ({ button_step_count := g.button_step_count,
                app_state := { level_step := level % 256,
                               remaining_time := if is_instant then 100 else 500 } },
              { element_idx := 0, is_final := is_final,
                set_data := { level := level,
                              transition_time := if is_instant then 100 else 500,
                              delay := 0 } }) := by
  obtain ⟨k, app⟩ := g
  simp only at hk
  have h : k = 0 ∨ k = 1 ∨ k = 2 ∨ k = 3 ∨ k = 4 ∨ k = 5 ∨ k = 6 ∨ k = 7 ∨ k = 8 := by omega
  rcases h with h | h | h | h | h | h | h | h | h <;> subst h <;>
    exact ⟨_, rfl, rfl⟩

/-- Instance of C18 at position 3 with `is_instant` clear and `is_final` set. -/
theorem set_level_request_witness :
    (3 : Nat) < 9 ∧
      ∃ level, client_level_step[3]? = some level ∧
        mesh_dimmer_set_level
            { button_step_count := 3, app_state := { level_step := 0, remaining_time := 0 } }
            false true =
          some ({ button_step_count := 3,
                  app_state := { level_step := level % 256,
                                 remaining_time := if false then 100 else 500 } },
                { element_idx := 0, is_final := true,
                  set_data := { level := level,
                                transition_time := if false then 100 else 500,
                                delay := 0 } }) :=
  ⟨by decide,
    set_level_request
      { button_step_count := 3, app_state := { level_step := 0, remaining_time := 0 } }
      false true (by decide)⟩

/-- C19: in a state that is not moving, a press starts (or restarts) the
button timer, which was created with period `BUTTON_INTERVAL_MS = 500`, and
sets the short-press flag; position, `previous_level`, both directions and
the moving flag keep their values, and neither `mesh_dimmer_set_level` nor
`mesh_application_factory_reset` is called. -/
theorem pressed_arms_timer (s : Dimmer) (hm : s.button_level_moving = false) :
    board_task BUTTON_PRESS s =
        ({ s with button_short_press := true }, [.xTimerStart .button_timer_handle]) ∧
      button_timer_create.period = 500 ∧
      (∀ a, timerActive .button_timer_handle a (board_task BUTTON_PRESS s).2 = true) ∧
      (board_task BUTTON_PRESS s).1.button_short_press = true ∧
      (board_task BUTTON_PRESS s).1.button_step_count = s.button_step_count ∧
      (board_task BUTTON_PRESS s).1.previous_level = s.previous_level ∧
      (board_task BUTTON_PRESS s).1.button_directon = s.button_directon ∧
      (board_task BUTTON_PRESS s).1.button_previous_direction = s.button_previous_direction ∧
      (board_task BUTTON_PRESS s).1.button_level_moving = false ∧
      (board_task BUTTON_PRESS s).2.any Call.isSetLevel = false ∧
      Call.mesh_application_factory_reset ∉ (board_task BUTTON_PRESS s).2 := by
  have h : board_task BUTTON_PRESS s =
      ({ s with button_short_press := true }, [.xTimerStart .button_timer_handle]) := by
    simp [board_task]
  rw [h]
  simp [hm, timerActive, Call.timerAfter, Call.isSetLevel, button_timer_create,
    BUTTON_INTERVAL_MS]

/-- Instance of C19 at start-up. -/
theorem pressed_arms_timer_witness :
    Dimmer.initial.button_level_moving = false ∧
      board_task BUTTON_PRESS Dimmer.initial =
        ({ Dimmer.initial with button_short_press := true },
          [.xTimerStart .button_timer_handle]) :=
  ⟨rfl, (pressed_arms_timer Dimmer.initial rfl).1⟩

/-- C20 as stated fails: a press in the moving state is not a pure timer
refresh.  After a press and one held fire the short-press flag is clear and
the machine is moving; a further press sets the short-press flag again. -/
theorem repress_while_moving_counterexample :
    (run 0 Dimmer.initial [.event .Pressed, .timer false]).button_level_moving = true ∧
      (run 0 Dimmer.initial [.event .Pressed, .timer false]).button_short_press = false ∧
      ¬ ((board_task BUTTON_PRESS
            (run 0 Dimmer.initial [.event .Pressed, .timer false])).1.button_short_press
          = (run 0 Dimmer.initial [.event .Pressed, .timer false]).button_short_press) := by
  decide

/-- C20, amended: in the moving state (moving flag set, short-press flag
clear) a press restarts the button timer and sets the short-press flag;
position, `previous_level`, both directions and the moving flag keep their
values and no other call is made. -/
theorem repress_while_moving (s : Dimmer) (hm : s.button_level_moving = true)
    (hs : s.button_short_press = false) :
    (board_task BUTTON_PRESS s).2 = [.xTimerStart .button_timer_handle] ∧
      (board_task BUTTON_PRESS s).1.button_short_press = true ∧
      (board_task BUTTON_PRESS s).1.button_short_press ≠ s.button_short_press ∧
      (board_task BUTTON_PRESS s).1.button_step_count = s.button_step_count ∧
      (board_task BUTTON_PRESS s).1.previous_level = s.previous_level ∧
      (board_task BUTTON_PRESS s).1.button_directon = s.button_directon ∧
      (board_task BUTTON_PRESS s).1.button_previous_direction = s.button_previous_direction ∧
      (board_task BUTTON_PRESS s).1.button_level_moving = true := by
  have h : board_task BUTTON_PRESS s =
      ({ s with button_short_press := true }, [.xTimerStart .button_timer_handle]) := by
    simp [board_task]
  rw [h]
  simp [hm, hs]

/-- Instance of the amended C20 after a press and one held fire. -/
theorem repress_while_moving_witness :
    (run 0 Dimmer.initial [.event .Pressed, .timer false]).button_level_moving = true ∧
      (run 0 Dimmer.initial [.event .Pressed, .timer false]).button_short_press = false ∧
      (board_task BUTTON_PRESS
        (run 0 Dimmer.initial [.event .Pressed, .timer false])).1.button_short_press = true :=
  ⟨rfl, rfl,
    (repress_while_moving (run 0 Dimmer.initial [.event .Pressed, .timer false]) rfl rfl).2.1⟩

/-! ## Delivery, power-off counter, invariants of the remembered level, encoding -/

/-- C21: when the notification slot of the worker still holds an unconsumed
value, an interrupt leaves that value in the slot whatever the handler
signals (the new event is dropped); into an empty slot the signalled event
is delivered. -/
theorem pending_event_not_overwritten (P value now : Nat) (e : Edge) (pending : Nat) :
    (button_interrupt_post P value now e (some pending)).2 = some pending ∧
      (∀ ev, (button_interrupt_callback P value now e).2 = some ev →
        (button_interrupt_post P value now e none).2 = some ev) ∧
      (button_interrupt_post P value now e (some pending)).1
        = (button_interrupt_callback P value now e).1 := by
  unfold button_interrupt_post
  generalize button_interrupt_callback P value now e = r
  obtain ⟨e1, ev⟩ := r
  cases ev <;> simp [xTaskNotifyFromISR]

/-- The counter entry is either absent or holds a value from 1 to 4. -/
theorem counter_entry_small (events : List PowerEvent) :
    ∀ store : Option Nat, (store = none ∨ ∃ b, store = some b ∧ 1 ≤ b ∧ b ≤ 4) →
      (powerRun store events = none ∨
        ∃ b, powerRun store events = some b ∧ 1 ≤ b ∧ b ≤ 4) := by
  induction events with
  | nil => intro store h; exact h
  | cons ev rest ih =>
    intro store h
    apply ih
    cases ev with
    | start_up k =>
      obtain ⟨kr, kw, kd⟩ := k
      rcases h with h | ⟨b, h, h1, h4⟩ <;> subst h
      · cases kr <;> cases kw <;>
          simp [powerStep, mesh_app_fast_power_off_execute, fastPowerOffCount,
            flash_memory_read, flash_memory_write, MESH_APP_FAST_POWER_OFF_NUM]
      · have hb : b = 1 ∨ b = 2 ∨ b = 3 ∨ b = 4 := by omega
        rcases hb with hb | hb | hb | hb <;> subst hb <;> cases kr <;> cases kw <;> cases kd <;>
          simp [powerStep, mesh_app_fast_power_off_execute, fastPowerOffCount,
            flash_memory_read, flash_memory_write, flash_memory_delete,
            MESH_APP_FAST_POWER_OFF_NUM]
    | timer_expired k =>
      obtain ⟨kr, kw, kd⟩ := k
      rcases h with h | ⟨b, h, h1, h4⟩ <;> subst h <;> cases kd <;>
        simp_all [powerStep, mesh_app_fast_power_off_timer_cb, flash_memory_delete]

/-- C22: with all store operations succeeding, on every counter entry the
firmware can have left behind (reachable from a store without the entry by
start-ups and timer expiries) a run computes `cnt = 1` when no counter is
stored and `stored + 1` otherwise; if `cnt ≥ 5` it deletes the counter and
calls the factory reset once without writing, else it writes `cnt` and
starts the 5-second timer.  Starting with no counter and the timer never
expiring, the first four runs store 1, 2, 3, 4 without a reset and the fifth
deletes the counter and calls the factory reset exactly once. -/
theorem fast_power_off_counter (k : KvResult) (store : Option Nat)
    (hreach : StoreReachable store)
    (hr : k.read_ok = true) (hw : k.write_ok = true) (hd : k.delete_ok = true) :
    fastPowerOffCount k store
        = Option.elim store 1 (fun stored => stored + 1) ∧
      (MESH_APP_FAST_POWER_OFF_NUM ≤ fastPowerOffCount k store →
        mesh_app_fast_power_off_execute k store = (none, [.mesh_application_factory_reset])) ∧
      (fastPowerOffCount k store < MESH_APP_FAST_POWER_OFF_NUM →
        mesh_app_fast_power_off_execute k store
          = (some (fastPowerOffCount k store), [.xTimerStart .power_off_timer])) ∧
      mesh_app_fast_power_off_execute k none = (some 1, [.xTimerStart .power_off_timer]) ∧
      mesh_app_fast_power_off_execute k (some 1) = (some 2, [.xTimerStart .power_off_timer]) ∧
      mesh_app_fast_power_off_execute k (some 2) = (some 3, [.xTimerStart .power_off_timer]) ∧
      mesh_app_fast_power_off_execute k (some 3) = (some 4, [.xTimerStart .power_off_timer]) ∧
      mesh_app_fast_power_off_execute k (some 4) = (none, [.mesh_application_factory_reset]) ∧
      (mesh_app_fast_power_off_execute k (some 4)).2.count .mesh_application_factory_reset
        = 1 ∧
      powerRun none [.start_up k, .start_up k, .start_up k, .start_up k] = some 4 ∧
      powerRun none [.start_up k, .start_up k, .start_up k, .start_up k, .start_up k] = none := by
  obtain ⟨r, w, d⟩ := k
  simp only at hr hw hd
  subst hr hw hd
  have hsmall : store = none ∨ ∃ b, store = some b ∧ 1 ≤ b ∧ b ≤ 4 := by
    obtain ⟨events, rfl⟩ := hreach
    exact counter_entry_small events none (Or.inl rfl)
  have hc : fastPowerOffCount { read_ok := true, write_ok := true, delete_ok := true } store
      = Option.elim store 1 (fun stored => stored + 1) := by
    rcases hsmall with h | ⟨b, h, h1, h4⟩ <;> subst h
    · simp [fastPowerOffCount, flash_memory_read]
    · have : (b + 1) % 256 = b + 1 := by omega
      simp [fastPowerOffCount, flash_memory_read, this]
  refine ⟨hc, ?_, ?_, by decide, by decide, by decide, by decide, by decide, by decide,
    by decide, by decide⟩
  · intro h
    simp [mesh_app_fast_power_off_execute, h, flash_memory_delete]
  · intro h
    have h2 : ¬ MESH_APP_FAST_POWER_OFF_NUM
        ≤ fastPowerOffCount { read_ok := true, write_ok := true, delete_ok := true } store := by
      omega
    simp [mesh_app_fast_power_off_execute, h2, flash_memory_write]

/-- Instance of C22 with all store operations succeeding: the entry left by
four start-ups in a row, and the fifth run on it. -/
theorem fast_power_off_counter_witness :
    StoreReachable (some 4) ∧
      (KvResult.mk true true true).read_ok = true ∧
      (KvResult.mk true true true).write_ok = true ∧
      (KvResult.mk true true true).delete_ok = true ∧
      fastPowerOffCount (KvResult.mk true true true) (some 4) = 4 + 1 ∧
      mesh_app_fast_power_off_execute (KvResult.mk true true true) (some 4)
        = (none, [.mesh_application_factory_reset]) :=
  ⟨⟨[.start_up (KvResult.mk true true true), .start_up (KvResult.mk true true true),
      .start_up (KvResult.mk true true true), .start_up (KvResult.mk true true true)], rfl⟩,
    rfl, rfl, rfl,
    (fast_power_off_counter (KvResult.mk true true true) (some 4)
      ⟨[.start_up (KvResult.mk true true true), .start_up (KvResult.mk true true true),
        .start_up (KvResult.mk true true true), .start_up (KvResult.mk true true true)], rfl⟩
      rfl rfl rfl).1,
    (fast_power_off_counter (KvResult.mk true true true) (some 4)
      ⟨[.start_up (KvResult.mk true true true), .start_up (KvResult.mk true true true),
        .start_up (KvResult.mk true true true), .start_up (KvResult.mk true true true)], rfl⟩
      rfl rfl rfl).2.1 (by decide)⟩

/-- C23: in every reachable state `previous_level` lies in 1..8, never 0; so
a short release taken with the short-press flag set at position 0 moves the
position to a non-zero index. -/
theorem previous_level_in_range (P : Nat) (s : Dimmer) (h : Reachable P s) :
    1 ≤ s.previous_level ∧ s.previous_level ≤ 8 ∧ s.previous_level ≠ 0 ∧
      (s.button_short_press = true → s.button_step_count = 0 →
        (board_task BUTTON_PRESSED s).1.button_step_count ≠ 0 ∧
        (board_task BUTTON_PRESSED s).1.button_step_count = s.previous_level) := by
  have hi := Inv_of_Reachable P s h
  obtain ⟨c, p, m, sp, d, pd⟩ := s
  simp only [Inv] at hi
  have hp : p ≠ 0 := by omega
  refine ⟨hi.2.1, hi.2.2.1, hp, ?_⟩
  intro hs h0
  simp only at hs h0
  subst hs h0
  unfold board_task
  simp only [BUTTON_PRESS, BUTTON_PRESSED, BUTTON_NUM_STEPS]
  split_ifs <;> simp_all

/-- Instance of C23 after a hold down to the floor: `previous_level` is 8. -/
theorem previous_level_in_range_witness :
    Reachable 0 (run 0 Dimmer.initial
        (.event .Pressed :: .event .ReleasedShort :: .event .Pressed ::
          List.replicate 8 (.timer false))) ∧
      1 ≤ (run 0 Dimmer.initial
        (.event .Pressed :: .event .ReleasedShort :: .event .Pressed ::
          List.replicate 8 (.timer false))).previous_level :=
  ⟨⟨_, rfl⟩,
    (previous_level_in_range 0
      (run 0 Dimmer.initial
        (.event .Pressed :: .event .ReleasedShort :: .event .Pressed ::
          List.replicate 8 (.timer false)))
      ⟨_, rfl⟩).1⟩

/-- C24: in every reachable state the direction is increasing at position 0
and decreasing at position 8, so a timer fire, whatever the pin reads, leaves
the position within 0..8: from 0 it stays or goes to 1, from 8 it stays or
goes to 7. -/
theorem direction_points_inwards (P : Nat) (s : Dimmer) (h : Reachable P s) :
    (s.button_step_count = 0 → s.button_directon = true) ∧
      (s.button_step_count = 8 → s.button_directon = false) ∧
      ∀ value : Bool,
        (button_timer_callback P value s).1.button_step_count ≤ 8 ∧
        (s.button_step_count = 0 →
          (button_timer_callback P value s).1.button_step_count = 0 ∨
          (button_timer_callback P value s).1.button_step_count = 1) ∧
        (s.button_step_count = 8 →
          (button_timer_callback P value s).1.button_step_count = 8 ∨
          (button_timer_callback P value s).1.button_step_count = 7) := by
  have hi := Inv_of_Reachable P s h
  refine ⟨hi.2.2.2.1, hi.2.2.2.2, fun value => ?_⟩
  refine ⟨(Inv_button_timer_callback P value s hi).1, ?_, ?_⟩
  · intro h0
    have hd := hi.2.2.2.1 h0
    obtain ⟨c, p, m, sp, d, pd⟩ := s
    simp only at h0 hd
    subst h0 hd
    unfold button_timer_callback
    simp only [BUTTON_NUM_STEPS]
    cases m <;> by_cases hv : value.toNat = P <;> simp [hv]
  · intro h8
    have hd := hi.2.2.2.2 h8
    obtain ⟨c, p, m, sp, d, pd⟩ := s
    simp only at h8 hd
    subst h8 hd
    unfold button_timer_callback
    simp only [BUTTON_NUM_STEPS]
    cases m <;> by_cases hv : value.toNat = P <;> simp [hv]

/-- Instance of C24 at the ceiling, reached by the first short press. -/
theorem direction_points_inwards_witness :
    Reachable 0 (run 0 Dimmer.initial [.event .Pressed, .event .ReleasedShort]) ∧
      (run 0 Dimmer.initial [.event .Pressed, .event .ReleasedShort]).button_step_count = 8 ∧
      (run 0 Dimmer.initial [.event .Pressed, .event .ReleasedShort]).button_directon = false :=
  ⟨⟨_, rfl⟩, rfl,
    (direction_points_inwards 0
      (run 0 Dimmer.initial [.event .Pressed, .event .ReleasedShort]) ⟨_, rfl⟩).2.1 rfl⟩

/-- C25: in a reachable state with the moving flag set, a timer fire that
reads the pin as released still moves the position by one step in the
current direction, makes exactly one `mesh_dimmer_set_level` call, with the
instant flag clear, and makes no call that starts the timer. -/
theorem fire_while_released_still_moves (P : Nat) (v : Bool) (s : Dimmer)
    (h : Reachable P s) (hm : s.button_level_moving = true) (hv : v.toNat ≠ P) :
    (s.button_directon = true →
        (button_timer_callback P v s).1.button_step_count = s.button_step_count + 1) ∧
      (s.button_directon = false →
        (button_timer_callback P v s).1.button_step_count + 1 = s.button_step_count) ∧
      (∃ is_final, (button_timer_callback P v s).2.filter Call.isSetLevel =
        [.mesh_dimmer_set_level false is_final
          (button_timer_callback P v s).1.button_step_count]) ∧
      Call.xTimerStart .button_timer_handle ∉ (button_timer_callback P v s).2 ∧
      Call.xTimerStartFromISR .button_timer_handle ∉ (button_timer_callback P v s).2 := by
  have hi := Inv_of_Reachable P s h
  obtain ⟨c, p, m, sp, d, pd⟩ := s
  simp only [Inv] at hi
  simp only at hm
  subst hm
  unfold button_timer_callback
  simp only [BUTTON_NUM_STEPS, hv, if_false]
  cases d <;> split_ifs <;> simp_all [Call.isSetLevel] <;> omega

/-- Instance of C25: after a press and two held fires the pin reads released
(level 1 with pressed level 0) and the fire still moves from 2 to 3. -/
theorem fire_while_released_still_moves_witness :
    Reachable 0 (run 0 Dimmer.initial [.event .Pressed, .timer false, .timer false]) ∧
      (run 0 Dimmer.initial [.event .Pressed, .timer false, .timer false]).button_level_moving
        = true ∧
      true.toNat ≠ 0 ∧
      (button_timer_callback 0 true
          (run 0 Dimmer.initial [.event .Pressed, .timer false, .timer false])
        ).1.button_step_count = 2 + 1 :=
  ⟨⟨_, rfl⟩, rfl, by decide,
    (fire_while_released_still_moves 0 true
      (run 0 Dimmer.initial [.event .Pressed, .timer false, .timer false])
      ⟨_, rfl⟩ rfl (by decide)).1 rfl⟩

/-- C26: a short release taken with the short-press flag set makes no call
that stops the timer (its active flag is left as it was) and keeps the
moving and short-press flags; and in a state that is not moving, a timer
fire that reads the pin as released changes no field and makes no call at
all, so it neither sends a level nor restarts the timer. -/
theorem short_press_timer_expires_harmlessly (P : Nat) (v : Bool) (s t : Dimmer)
    (hs : s.button_short_press = true) (hm : t.button_level_moving = false)
    (hv : v.toNat ≠ P) :
    (Call.xTimerStop .button_timer_handle ∉ (board_task BUTTON_PRESSED s).2 ∧
      Call.xTimerStopFromISR .button_timer_handle ∉ (board_task BUTTON_PRESSED s).2 ∧
      (∀ a, timerActive .button_timer_handle a (board_task BUTTON_PRESSED s).2 = a) ∧
      (board_task BUTTON_PRESSED s).1.button_level_moving = s.button_level_moving ∧
      (board_task BUTTON_PRESSED s).1.button_short_press = s.button_short_press) ∧
    button_timer_callback P v t = (t, []) := by
  constructor
  · obtain ⟨c, p, m, sp, d, pd⟩ := s
    simp only at hs
    subst hs
    unfold board_task
    simp only [BUTTON_PRESS, BUTTON_PRESSED, BUTTON_NUM_STEPS]
    split_ifs <;> simp_all [timerActive, Call.timerAfter]
  · obtain ⟨c, p, m, sp, d, pd⟩ := t
    simp only at hm
    subst hm
    unfold button_timer_callback
    simp [hv]

/-- Instance of C26 at the first short press: the release, then the left-over
timer fire with the pin reading released. -/
theorem short_press_timer_expires_harmlessly_witness :
    (run 0 Dimmer.initial [.event .Pressed]).button_short_press = true ∧
      (run 0 Dimmer.initial [.event .Pressed, .event .ReleasedShort]).button_level_moving
        = false ∧
      true.toNat ≠ 0 ∧
      button_timer_callback 0 true
          (run 0 Dimmer.initial [.event .Pressed, .event .ReleasedShort])
        = (run 0 Dimmer.initial [.event .Pressed, .event .ReleasedShort], []) :=
  ⟨rfl, rfl, by decide,
    (short_press_timer_expires_harmlessly 0 true
      (run 0 Dimmer.initial [.event .Pressed])
      (run 0 Dimmer.initial [.event .Pressed, .event .ReleasedShort])
      rfl rfl (by decide)).2⟩

/-- C27: on a release edge with both tick values below `2 ^ 32`, the recorded
duration is `(now - pressedAt) mod 2 ^ 32`; so when `d < 2 ^ 32` ticks have
really elapsed since the press, also across a wrap of the tick counter, the
recorded duration is `d` and the event is classified by `d`. -/
theorem held_duration_across_wrap (P value now : Nat) (e : Edge)
    (hedge : value ≠ e.button_previous_value) (hrel : value ≠ P)
    (hnow : now < 2 ^ 32) (hp : e.button_pushed_time < 2 ^ 32) :
    ((button_interrupt_callback P value now e).1.button_pushed_duration : Int)
        = ((now : Int) - (e.button_pushed_time : Int)) % 2 ^ 32 ∧
      ∀ d, d < 2 ^ 32 → now = (e.button_pushed_time + d) % 2 ^ 32 →
        (button_interrupt_callback P value now e).1.button_pushed_duration = d ∧
        ((button_interrupt_callback P value now e).2 = some BUTTON_LONGPRESSED ↔ 10000 ≤ d) ∧
        ((button_interrupt_callback P value now e).2 = some BUTTON_PRESSED ↔ d < 10000) := by
  have hp64 : e.button_pushed_time < 2 ^ 64 := by
    have : (2 : Nat) ^ 32 < 2 ^ 64 := by norm_num
    omega
  have hd := held_duration_mod now e.button_pushed_time hp64
  have hdur : (button_interrupt_callback P value now e).1.button_pushed_duration
      = ((now + 2 ^ 64 - e.button_pushed_time) % 2 ^ 64) % 2 ^ 32 := by
    unfold button_interrupt_callback
    simp [hedge, hrel]
  have hev : (button_interrupt_callback P value now e).2
      = some (if (button_interrupt_callback P value now e).1.button_pushed_duration
          < BUTTON_LONGPRESS_INTERVAL then BUTTON_PRESSED else BUTTON_LONGPRESSED) := by
    unfold button_interrupt_callback
    simp [hedge, hrel]
  refine ⟨by rw [hdur]; exact hd, ?_⟩
  intro d hdlt hnowd
  have hval : (button_interrupt_callback P value now e).1.button_pushed_duration = d := by
    rw [hdur]
    norm_num at hnow hp hdlt hnowd ⊢
    omega
  refine ⟨hval, ?_, ?_⟩
  · rw [hev, hval]
    simp only [BUTTON_LONGPRESS_INTERVAL, BUTTON_PRESSED, BUTTON_LONGPRESSED]
    split_ifs <;> simp <;> omega
  · rw [hev, hval]
    simp only [BUTTON_LONGPRESS_INTERVAL, BUTTON_PRESSED, BUTTON_LONGPRESSED]
    split_ifs <;> simp <;> omega

/-- Instance of C27: pressed 6 ticks before the counter wraps, released 5
ticks after; 11 ticks are recorded and the release is short. -/
theorem held_duration_across_wrap_witness :
    ((1 : Nat) ≠ (Edge.mk 0 4294967290 0).button_previous_value ∧ (1 : Nat) ≠ 0 ∧
        (5 : Nat) < 2 ^ 32 ∧ (Edge.mk 0 4294967290 0).button_pushed_time < 2 ^ 32) ∧
      (button_interrupt_callback 0 1 5 (Edge.mk 0 4294967290 0)).1.button_pushed_duration = 11 ∧
      (button_interrupt_callback 0 1 5 (Edge.mk 0 4294967290 0)).2 = some BUTTON_PRESSED :=
  ⟨⟨by decide, by decide, by norm_num, by norm_num⟩,
    ((held_duration_across_wrap 0 1 5 (Edge.mk 0 4294967290 0) (by decide) (by decide)
      (by norm_num) (by norm_num)).2 11 (by norm_num) (by norm_num)).1,
    ((held_duration_across_wrap 0 1 5 (Edge.mk 0 4294967290 0) (by decide) (by decide)
      (by norm_num) (by norm_num)).2 11 (by norm_num) (by norm_num)).2.2.mpr (by norm_num)⟩

/-- C28: read as signed 16-bit integers the nine table entries run from
-32768 at index 0 to 32767 at index 8 and increase strictly with the index,
so a higher position maps to a strictly higher level; read as unsigned, as
the table is declared, they are not increasing. -/
theorem level_table_signed_increasing (i j : Nat) (hij : i < j) (hj : j < 9) :
    int16_of_uint16 (client_level_step.getD i 0) < int16_of_uint16 (client_level_step.getD j 0) ∧
      client_level_step.map int16_of_uint16
        = [-32768, -24576, -16384, -8192, 0, 8192, 16384, 24576, 32767] ∧
      List.Pairwise (fun a b => a < b) (client_level_step.map int16_of_uint16) ∧
      ¬ List.Pairwise (fun a b => a < b) client_level_step := by
  have hmap : client_level_step.map int16_of_uint16
      = [-32768, -24576, -16384, -8192, 0, 8192, 16384, 24576, 32767] := by
    simp [client_level_step, int16_of_uint16]
  refine ⟨?_, hmap, ?_, ?_⟩
  · have h : ∀ k, k < 9 → int16_of_uint16 (client_level_step.getD k 0)
        = (client_level_step.map int16_of_uint16).getD k 0 := by
      intro k hk
      interval_cases k <;> simp [client_level_step, int16_of_uint16]
    rw [h i (by omega), h j hj, hmap]
    interval_cases j <;> interval_cases i <;> simp
  · rw [hmap]
    decide
  · simp [client_level_step]

/-- Instance of C28 at indices 3 and 4, where the unsigned reading drops
from 0xE000 to 0. -/
theorem level_table_signed_increasing_witness :
    (3 : Nat) < 4 ∧ (4 : Nat) < 9 ∧
      int16_of_uint16 (client_level_step.getD 3 0)
        < int16_of_uint16 (client_level_step.getD 4 0) ∧
      ¬ (client_level_step.getD 3 0 < client_level_step.getD 4 0) :=
  ⟨by decide, by decide,
    (level_table_signed_increasing 3 4 (by decide) (by decide)).1, by decide⟩

/-- With the pressed level 0 and the line reading only 0 or 1: from a state
recording level 1 the signals alternate starting with a press; from a state
recording level 0 they alternate starting with a release measured from the
stored press tick. -/
theorem alternatesFrom_edgeSignals (inputs : List (Nat × Nat)) :
    ∀ e : Edge, (∀ i ∈ inputs, i.1 = 0 ∨ i.1 = 1) →
      (e.button_previous_value = 1 → alternatesFrom none (edgeSignals 0 e inputs) = true) ∧
      (e.button_previous_value = 0 →
        alternatesFrom (some e.button_pushed_time) (edgeSignals 0 e inputs) = true) := by
  induction inputs with
  | nil =>
    intro e _
    cases e
    simp [edgeSignals, alternatesFrom]
  | cons i rest ih =>
    intro e hv
    have hi : i.1 = 0 ∨ i.1 = 1 := hv i (List.mem_cons_self _ _)
    have hrest : ∀ x ∈ rest, x.1 = 0 ∨ x.1 = 1 := fun x hx => hv x (List.mem_cons_of_mem _ hx)
    obtain ⟨pv, pt, pd⟩ := e
    obtain ⟨v, t⟩ := i
    simp only at hi
    constructor
    · intro hp
      simp only at hp
      subst hp
      rcases hi with h0 | h1
      · subst h0
        have := (ih (Edge.mk 0 t pd) hrest).2 rfl
        simpa [edgeSignals, button_interrupt_callback, alternatesFrom, BUTTON_PRESS] using this
      · subst h1
        have := (ih (Edge.mk 1 pt pd) hrest).1 rfl
        simpa [edgeSignals, button_interrupt_callback] using this
    · intro hp
      simp only at hp
      subst hp
      rcases hi with h0 | h1
      · subst h0
        have := (ih (Edge.mk 0 pt pd) hrest).2 rfl
        simpa [edgeSignals, button_interrupt_callback] using this
      · subst h1
        have := (ih (Edge.mk 1 pt (((t + 2 ^ 64 - pt) % 2 ^ 64) % 2 ^ 32)) hrest).1 rfl
        simp only [edgeSignals, button_interrupt_callback, alternatesFrom]
        simp only [one_ne_zero, if_false, Bool.and_eq_true, decide_eq_true_eq]
        refine ⟨⟨?_, trivial⟩, this⟩
        simp only [BUTTON_PRESSED, BUTTON_LONGPRESSED]
        split_ifs <;> simp

/-- C29: with the pressed level 0 and every interrupt reading 0 or 1, the
events signalled from start-up (recorded level 1) over any sequence of
interrupts alternate strictly between a press and a release, starting with
a press, and the duration recorded at each release is the 32-bit difference
between its own tick and the tick of the press signalled just before it. -/
theorem signals_alternate (inputs : List (Nat × Nat))
    (hv : ∀ i ∈ inputs, i.1 = 0 ∨ i.1 = 1) :
    alternatesFrom none (edgeSignals 0 Edge.initial inputs) = true :=
  (alternatesFrom_edgeSignals inputs Edge.initial hv).1 rfl

/-- Instance of C29 on a sequence with two noise interrupts, a long press and
a press across the wrap of the tick counter. -/
theorem signals_alternate_witness :
    (∀ i ∈ [(0, 100), (0, 120), (1, 10100), (1, 10105), (0, 4294967290), (1, 5)],
        i.1 = 0 ∨ i.1 = 1) ∧
      alternatesFrom none
        (edgeSignals 0 Edge.initial
          [(0, 100), (0, 120), (1, 10100), (1, 10105), (0, 4294967290), (1, 5)]) = true :=
  ⟨by decide,
    signals_alternate [(0, 100), (0, 120), (1, 10100), (1, 10105), (0, 4294967290), (1, 5)]
      (by decide)⟩

/-- C30: for every 16-bit `config_item_id` the base-16 rendering has at most
4 digits, so the key with its terminator fits the 5-byte buffer
`char key[]="0000"`. -/
theorem flash_key_fits (config_item_id : Nat) (h : config_item_id < 2 ^ 16) :
    (itoa config_item_id FLASH_KEY_BASE).length ≤ 4 ∧
      (flash_key config_item_id).length ≤ flash_key_buffer_size ∧
      flash_key_buffer_size = 5 := by
  have hlen : (itoa config_item_id FLASH_KEY_BASE).length ≤ 4 := by
    unfold itoa FLASH_KEY_BASE
    by_cases h0 : config_item_id = 0
    · simp [h0]
    · simp only [h0, if_false, List.length_map, List.length_reverse]
      rw [Nat.digits_len 16 config_item_id (by norm_num) h0]
      have : Nat.log 16 config_item_id < 4 :=
        Nat.log_lt_of_lt_pow h0 (by norm_num at h ⊢; exact h)
      omega
  refine ⟨hlen, ?_, by decide⟩
  simp only [flash_key, List.length_append, List.length_singleton]
  have : flash_key_buffer_size = 5 := by decide
  omega

/-- Instance of C30 at the largest identifier, `0xFFFF`. -/
theorem flash_key_fits_witness :
    (65535 : Nat) < 2 ^ 16 ∧ (flash_key 65535).length ≤ flash_key_buffer_size :=
  ⟨by norm_num, (flash_key_fits 65535 (by norm_num)).2.1⟩

end MeshDimmer
